import Mathlib

/-!
Verification development for the CAJanus device-fingerprint tool.

This file gives a shallow embedding, in Lean, of the core algorithms of the
repository (MAC-address handling, fingerprint-change validation and
application, the audit-log read paths, and the registry-backup store), and
proves or refutes the specification claims about them.

Conventions of the embedding:
* Python strings are Lean `String`s; most character work happens on `List Char`
  (`String.data`).
* Randomness (`random.randint(0, 255)`) is passed in as a function
  `rand : Nat → Nat` giving the value of the i-th call.
* OS state (adapters found by enumeration, privilege checks, outcomes of
  native registry/ifconfig writes) is passed in as explicit environment
  records; native side effects are reified as an event trace.
* Python exceptions are `Except` values; a `try/except` that wraps an
  exception into another type is modelled by mapping the error value.
-/

namespace CAJanus

/-! ### Character classes used by the repository's regular expressions -/

/-- The character class `[0-9A-Fa-f]` used by both the MAC-validation regex
`^([0-9A-Fa-f]{2}[:-]){5}([0-9A-Fa-f]{2})$` and the substitution
`re.sub(r'[^0-9A-Fa-f]', '', mac)` in `_normalize_mac_address`. -/
def isHexChar (c : Char) : Bool :=
  "0123456789abcdefABCDEF".data.contains c

/-- The separator class `[:-]` of the MAC-validation regex. -/
def isSepChar (c : Char) : Bool := c = ':' || c = '-'

/-- Value of a hexadecimal digit character (0 for non-digits; callers only
use it on members of `isHexChar`). -/
def hexDigitVal (c : Char) : Nat :=
  if '0' ≤ c ∧ c ≤ '9' then c.toNat - '0'.toNat
  else if 'a' ≤ c ∧ c ≤ 'f' then c.toNat - 'a'.toNat + 10
  else if 'A' ≤ c ∧ c ≤ 'F' then c.toNat - 'A'.toNat + 10
  else 0

/-- Upper-case hexadecimal digit characters, indexed by value. -/
def hexUpperDigits : List Char := "0123456789ABCDEF".data

/-- Lower-case hexadecimal digit characters, indexed by value. -/
def hexLowerDigits : List Char := "0123456789abcdef".data

/-- Python `f'{b:02X}'` for `0 ≤ b ≤ 255`: two upper-case hex digits. -/
def toHex2Upper (b : Nat) : List Char :=
  [hexUpperDigits.getD (b / 16) '0', hexUpperDigits.getD (b % 16) '0']

/-- Python `f'{b:02x}'` for `0 ≤ b ≤ 255`: two lower-case hex digits. -/
def toHex2Lower (b : Nat) : List Char :=
  [hexLowerDigits.getD (b / 16) '0', hexLowerDigits.getD (b % 16) '0']

/-- `':'.join(s[i:i+2] for i in range(0, len(s), 2))` on an even-length
character list: interleave a colon after every pair. -/
def colonJoinPairs : List Char → List Char
  | a :: b :: c :: rest => a :: b :: ':' :: colonJoinPairs (c :: rest)
  | l => l

/-! ### `NetworkManager._normalize_mac_address` (windows/network_manager.py) -/

/-- `_normalize_mac_address`: empty input yields `''`; otherwise all
non-`[0-9A-Fa-f]` characters are removed; if the remainder is not exactly 12
characters the original string is returned unchanged; otherwise the 12 hex
characters are upper-cased and joined in pairs with `':'`. -/
def normalize_mac_address (mac : String) : String :=
  if mac = "" then ""
  else
    let clean := mac.data.filter isHexChar
    if clean.length ≠ 12 then mac
    else String.mk (colonJoinPairs (clean.map Char.toUpper))

/-- The canonical colon-delimited upper-case form of a MAC string: its hex
characters, upper-cased, joined in pairs with `':'`.  This is the target
form named by the specification. -/
def canonicalMac (mac : String) : String :=
  String.mk (colonJoinPairs ((mac.data.filter isHexChar).map Char.toUpper))

/-! ### `_validate_mac_address` (identical in the Windows and macOS managers) -/

/-- Matcher for `([0-9A-Fa-f]{2}[:-]){n}` followed by `[0-9A-Fa-f]{2}` at
end of input (anchored `^...$`). -/
def macRegexAux : Nat → List Char → Bool
  | 0, cs =>
    match cs with
    | [a, b] => isHexChar a && isHexChar b
    | _ => false
  | n + 1, cs =>
    match cs with
    | a :: b :: s :: rest => isHexChar a && isHexChar b && isSepChar s && macRegexAux n rest
    | _ => false

/-- `_validate_mac_address`: full match of
`^([0-9A-Fa-f]{2}[:-]){5}([0-9A-Fa-f]{2})$`. -/
def validate_mac_address (mac : String) : Bool := macRegexAux 5 mac.data

/-! ### `uuid.UUID` syntactic acceptance (used by the Windows validator)

Model of the Python constructor `uuid.UUID(s)` on the syntactic level: the
constructor removes `urn:` and `uuid:` markers, strips surrounding braces,
drops dashes and then requires exactly 32 characters parsed by
`int(_, 16)`; we model the int-parse as "all hex digits", which is the
acceptance relevant to syntactically valid 128-bit identifiers. -/

/-- Python `str.strip('{}')`: remove leading and trailing `{`/`}` characters. -/
def pyStripBraces (cs : List Char) : List Char :=
  ((cs.dropWhile fun c => c = '\x7b' || c = '\x7d').reverse.dropWhile
    fun c => c = '\x7b' || c = '\x7d').reverse

/-- Does `needle` occur as a prefix of `hay`? -/
def startsWithChars (needle hay : List Char) : Bool :=
  match needle, hay with
  | [], _ => true
  | n :: ns, h :: hs => n = h && startsWithChars ns hs
  | _ :: _, [] => false

/-- Python `str.replace(old, new)` for a non-empty `old` (`n0 :: ntail`):
scan left to right, replacing non-overlapping occurrences.  `fuel` bounds the
recursion; callers pass the input length, which suffices because every step
consumes at least one character. -/
def replaceAllFuel (n0 : Char) (ntail repl : List Char) : Nat → List Char → List Char
  | _, [] => []
  | 0, l => l
  | fuel + 1, c :: rest =>
    if c = n0 ∧ startsWithChars ntail rest = true then
      repl ++ replaceAllFuel n0 ntail repl fuel (rest.drop ntail.length)
    else c :: replaceAllFuel n0 ntail repl fuel rest

/-- Python `s.replace(needle, repl)` (non-empty needles only). -/
def pyReplace (s needle repl : String) : String :=
  match needle.data with
  | [] => s
  | n0 :: ntail => String.mk (replaceAllFuel n0 ntail repl.data s.data.length s.data)

/-- Syntactic validity of a string as a `uuid.UUID` argument. -/
def pyUUIDValid (s : String) : Bool :=
  let h1 := pyReplace (pyReplace s "urn:" "") "uuid:" ""
  let h2 := (pyStripBraces h1.data).filter (fun c => c ≠ '-')
  h2.length = 32 && h2.all isHexChar

/-! ### `generate_random_mac` (Windows and macOS network managers)

Both implementations are identical except that in the vendor-prefix branch
Windows formats the random suffix with `%02X` (upper case) and macOS with
`%02x` (lower case).  `rand i` is the value of the i-th call to
`random.randint(0, 255)`. -/

/-- `vendor_prefix.replace(':', '').replace('-', '')[:6]`. -/
def cleanVendor (s : String) : List Char :=
  ((s.data.filter (fun c => c ≠ ':')).filter (fun c => c ≠ '-')).take 6

/-- The fully random branch (no vendor prefix), shared by both platforms:
the first byte gets the locally-administered bit set (`| 0x02`) and the
multicast bit cleared (`& 0xFE`). -/
def randomMacNoVendor (rand : Nat → Nat) : String :=
  let firstByte := (rand 0 ||| 2) &&& 0xFE
  let macBytes := [firstByte, rand 1, rand 2, rand 3, rand 4, rand 5]
  String.mk (colonJoinPairs (macBytes.map toHex2Upper).flatten)

/-- Windows `NetworkManager.generate_random_mac`.  A `none` or empty
(`falsy`) vendor prefix takes the fully random branch; a non-empty prefix is
cleaned, must have exactly 6 characters, and is used verbatim as the first
three octets, followed by three random bytes in upper case. -/
def generate_random_mac_windows (rand : Nat → Nat) (vendor : Option String) :
    Except String String :=
  match vendor with
  | none => .ok (randomMacNoVendor rand)
  | some v =>
    if v = "" then .ok (randomMacNoVendor rand)
    else
      let pfx := cleanVendor v
      if pfx.length ≠ 6 then .error "厂商前缀必须是3字节（6个十六进制字符）"
      else
        let suffix := toHex2Upper (rand 0) ++ toHex2Upper (rand 1) ++ toHex2Upper (rand 2)
        .ok (String.mk (colonJoinPairs (pfx ++ suffix)))

/-- macOS `MacOSNetworkManager.generate_random_mac`: identical control flow,
random suffix of the vendor branch formatted with `%02x` (lower case). -/
def generate_random_mac_macos (rand : Nat → Nat) (vendor : Option String) :
    Except String String :=
  match vendor with
  | none => .ok (randomMacNoVendor rand)
  | some v =>
    if v = "" then .ok (randomMacNoVendor rand)
    else
      let pfx := cleanVendor v
      if pfx.length ≠ 6 then .error "厂商前缀必须是3字节（6个十六进制字符）"
      else
        let suffix := toHex2Lower (rand 0) ++ toHex2Lower (rand 1) ++ toHex2Lower (rand 2)
        .ok (String.mk (colonJoinPairs (pfx ++ suffix)))

/-- Value of the first octet of a formatted MAC string (its first two
characters read as hex). -/
def firstOctet (s : String) : Nat :=
  match s.data with
  | a :: b :: _ => 16 * hexDigitVal a + hexDigitVal b
  | _ => 0

/-! ### Basic lemmas about the hex-character machinery -/

lemma hexChar_facts :
    ∀ c ∈ "0123456789abcdefABCDEF".data,
      isHexChar (Char.toUpper c) = true ∧ Char.toUpper (Char.toUpper c) = Char.toUpper c := by
  decide

lemma hexChar_toUpper {c : Char} (h : isHexChar c = true) :
    isHexChar c.toUpper = true ∧ Char.toUpper c.toUpper = c.toUpper :=
  hexChar_facts c (List.mem_of_elem_eq_true h)

lemma sepChar_not_hex {c : Char} (h : isSepChar c = true) : isHexChar c = false := by
  simp only [isSepChar, Bool.or_eq_true, decide_eq_true_eq] at h
  rcases h with rfl | rfl <;> decide

lemma hexVal_upper_digit {n : Nat} (h : n < 16) :
    hexDigitVal (hexUpperDigits.getD n '0') = n := by
  interval_cases n <;> decide

/-- The hex characters recovered from a MAC string accepted by the validation
regex: exactly `2 * n + 2` of them, and the input is nonempty. -/
lemma macRegexAux_spec : ∀ (n : Nat) (cs : List Char), macRegexAux n cs = true →
    (cs.filter isHexChar).length = 2 * n + 2 ∧ cs ≠ [] := by
  intro n
  induction n with
  | zero =>
    intro cs h
    match cs with
    | [] => simp [macRegexAux] at h
    | [_] => simp [macRegexAux] at h
    | [a, b] =>
      simp only [macRegexAux, Bool.and_eq_true] at h
      refine ⟨?_, by simp⟩
      simp [List.filter, h.1, h.2]
    | _ :: _ :: _ :: _ => simp [macRegexAux] at h
  | succ n ih =>
    intro cs h
    match cs with
    | [] => simp [macRegexAux] at h
    | [_] => simp [macRegexAux] at h
    | [_, _] => simp [macRegexAux] at h
    | a :: b :: s :: rest =>
      simp only [macRegexAux, Bool.and_eq_true] at h
      obtain ⟨⟨⟨ha, hb⟩, hs⟩, hrest⟩ := h
      have := ih rest hrest
      refine ⟨?_, by simp⟩
      simp only [List.filter, ha, hb, sepChar_not_hex hs]
      simp only [List.length_cons, this.1]
      ring

lemma colonJoinPairs_filter : ∀ (u : List Char), (∀ c ∈ u, isHexChar c = true) →
    (colonJoinPairs u).filter isHexChar = u
  | [], _ => by simp [colonJoinPairs]
  | [a], h => by
    simp [colonJoinPairs, List.filter, h a (by simp)]
  | [a, b], h => by
    simp [colonJoinPairs, List.filter, h a (by simp), h b (by simp)]
  | a :: b :: c :: rest, h => by
    have ha := h a (by simp)
    have hb := h b (by simp)
    have hrec := colonJoinPairs_filter (c :: rest) (fun x hx => h x (by simp [hx]))
    simp only [colonJoinPairs, List.filter, ha, hb]
    have hcolon : isHexChar ':' = false := by decide
    simp [hcolon, hrec]

lemma colonJoinPairs_ne_nil {u : List Char} (hu : u ≠ []) : colonJoinPairs u ≠ [] := by
  match u with
  | [] => exact absurd rfl hu
  | [a] => simp [colonJoinPairs]
  | [a, b] => simp [colonJoinPairs]
  | a :: b :: c :: rest => simp [colonJoinPairs]

lemma map_toUpper_fixed : ∀ (u : List Char), (∀ c ∈ u, Char.toUpper c = c) →
    u.map Char.toUpper = u
  | [], _ => rfl
  | a :: rest, h => by
    simp only [List.map, h a (by simp), map_toUpper_fixed rest (fun x hx => h x (by simp [hx]))]

lemma string_mk_ne_empty {l : List Char} (h : l ≠ []) : String.mk l ≠ "" := by
  intro he
  exact h (congrArg String.data he)

/-- C7, theorem.  For every string accepted by the MAC-validation regex (six
hex octet pairs separated by `:` or `-`), `_normalize_mac_address` returns
the canonical colon-delimited upper-case form, and it is idempotent on its
own output. -/
theorem C7_normalize_canonical_idempotent (s : String) (h : validate_mac_address s = true) :
    normalize_mac_address s = canonicalMac s ∧
    normalize_mac_address (normalize_mac_address s) = normalize_mac_address s := by
  obtain ⟨hlen, hne⟩ := macRegexAux_spec 5 s.data h
  have hsne : s ≠ "" := by
    intro he
    exact hne (congrArg String.data he)
  have hfirst : normalize_mac_address s = canonicalMac s := by
    unfold normalize_mac_address canonicalMac
    rw [if_neg hsne, if_neg (by omega)]
  refine ⟨hfirst, ?_⟩
  rw [hfirst]
  -- now show the canonical form is a fixed point
  set u := (s.data.filter isHexChar).map Char.toUpper with hu
  have huhex : ∀ c ∈ u, isHexChar c = true := by
    intro c hc
    rw [hu] at hc
    obtain ⟨d, hd, rfl⟩ := List.mem_map.mp hc
    exact (hexChar_toUpper (List.of_mem_filter hd)).1
  have hufix : ∀ c ∈ u, Char.toUpper c = c := by
    intro c hc
    rw [hu] at hc
    obtain ⟨d, hd, rfl⟩ := List.mem_map.mp hc
    exact (hexChar_toUpper (List.of_mem_filter hd)).2
  have hulen : u.length = 12 := by
    rw [hu, List.length_map, hlen]
  have hune : u ≠ [] := by
    intro he
    rw [he] at hulen
    simp at hulen
  have hdata : (String.mk (colonJoinPairs u)).data = colonJoinPairs u := rfl
  unfold canonicalMac normalize_mac_address
  rw [if_neg (string_mk_ne_empty (colonJoinPairs_ne_nil hune))]
  rw [hdata, colonJoinPairs_filter u huhex]
  rw [if_neg (by omega), map_toUpper_fixed u hufix]

/-! ### C1: flag bits of generated random MAC addresses -/

lemma firstOctet_randomMacNoVendor (rand : Nat → Nat) :
    firstOctet (randomMacNoVendor rand) = (rand 0 ||| 2) &&& 0xFE := by
  have hlt : (rand 0 ||| 2) &&& 0xFE < 256 :=
    lt_of_le_of_lt Nat.and_le_right (by norm_num)
  have h1 : firstOctet (randomMacNoVendor rand)
      = 16 * hexDigitVal (hexUpperDigits.getD (((rand 0 ||| 2) &&& 0xFE) / 16) '0')
      + hexDigitVal (hexUpperDigits.getD (((rand 0 ||| 2) &&& 0xFE) % 16) '0') := rfl
  rw [h1, hexVal_upper_digit (Nat.div_lt_of_lt_mul (by omega)),
    hexVal_upper_digit (Nat.mod_lt _ (by omega)), Nat.div_add_mod]

/-- C1, corrected theorem.  On both platforms, for every sequence of random
bytes, the MAC generated *without* a vendor prefix has the multicast bit
(lowest bit of the first octet) clear and the locally-administered bit
(second-lowest bit) set.  (With a caller-supplied vendor prefix the first
three octets are copied verbatim from the prefix and no bit is adjusted —
see the counterexample.) -/
theorem C1_random_mac_flag_bits (rand : Nat → Nat) :
    generate_random_mac_windows rand none = .ok (randomMacNoVendor rand) ∧
    generate_random_mac_macos rand none = .ok (randomMacNoVendor rand) ∧
    (firstOctet (randomMacNoVendor rand)).testBit 0 = false ∧
    (firstOctet (randomMacNoVendor rand)).testBit 1 = true := by
  refine ⟨rfl, rfl, ?_, ?_⟩ <;> rw [firstOctet_randomMacNoVendor]
  · rw [Nat.testBit_land]
    simp [Nat.testBit_lor]
  · rw [Nat.testBit_land, Nat.testBit_lor]
    simp only [Bool.and_eq_true, Bool.or_eq_true]
    exact ⟨Or.inr (by decide), by decide⟩

/-- C1, counterexample.  With the caller-supplied vendor prefix `00:1A:2B`
(a plain globally-administered OUI) both platform implementations return
`00:1A:2B:…` whose first octet has the locally-administered bit equal to 0,
contradicting the claim that the bit is 1 for every generated MAC. -/
theorem C1_counterexample :
    generate_random_mac_windows (fun _ => 0) (some "00:1A:2B") = .ok "00:1A:2B:00:00:00" ∧
    generate_random_mac_macos (fun _ => 0) (some "00:1A:2B") = .ok "00:1A:2B:00:00:00" ∧
    (firstOctet "00:1A:2B:00:00:00").testBit 1 = false := by
  exact ⟨rfl, rfl, by decide⟩

/-- Witness for C7 at the concrete hyphen-delimited input `aa-bb-cc-dd-ee-ff`. -/
theorem C7_witness :
    validate_mac_address "aa-bb-cc-dd-ee-ff" = true ∧
    normalize_mac_address "aa-bb-cc-dd-ee-ff" = canonicalMac "aa-bb-cc-dd-ee-ff" ∧
    normalize_mac_address (normalize_mac_address "aa-bb-cc-dd-ee-ff") =
      normalize_mac_address "aa-bb-cc-dd-ee-ff" :=
  ⟨by decide, (C7_normalize_canonical_idempotent "aa-bb-cc-dd-ee-ff" (by decide)).1,
    (C7_normalize_canonical_idempotent "aa-bb-cc-dd-ee-ff" (by decide)).2⟩

/-! ## Fingerprint-change validation (validate_fingerprint_changes)

The two platform implementations build a result dict
`{'valid': Bool, 'warnings': [...], 'errors': [...], 'risk_level': str}`
and fold per-kind rules over it.  We embed the result dict as
`ValidationState` and each rule as a state transformer, composed exactly in
the source order. -/

/-- The four risk tiers of the tool (`'low' | 'medium' | 'high' | 'critical'`). -/
inductive Risk
  | low
  | medium
  | high
  | critical
deriving DecidableEq

/-- Numeric rank giving the escalation order low < medium < high < critical. -/
def riskRank : Risk → Nat
  | .low => 0
  | .medium => 1
  | .high => 2
  | .critical => 3

/-- The mutable validation-result dict of `validate_fingerprint_changes`. -/
structure ValidationState where
  valid : Bool
  warnings : List String
  errors : List String
  risk_level : Risk
deriving DecidableEq

/-- Initial value `{'valid': True, 'warnings': [], 'errors': [], 'risk_level': 'low'}`. -/
def initValidation : ValidationState := ⟨true, [], [], .low⟩

/-- Adapter classes (`AdapterType` enum of core/interfaces.py). -/
inductive AdapterType
  | ethernet
  | wireless
  | virtual
  | bluetooth
  | other
deriving DecidableEq

/-- The `NetworkAdapter` dataclass of core/interfaces.py. -/
structure NetworkAdapterRec where
  id : String
  name : String
  description : String
  mac_address : String
  status : String
  adapter_type : AdapterType
  can_modify : Bool
  registry_path : Option String := none
  interface_name : Option String := none
deriving DecidableEq

/-- A change-set dict as consumed by `validate_fingerprint_changes` /
`apply_fingerprint_changes`: optional fields model key presence.
`mac_changes` is an insertion-ordered dict adapter-id ↦ new MAC;
`machine_guid` is the Windows machine-identity key, `hardware_uuid` the
macOS one (the macOS code only tests key presence); the code also only
tests presence of `volume_serial_changes`. -/
structure Changes where
  mac_changes : Option (List (String × String)) := none
  machine_guid : Option String := none
  hardware_uuid : Option Unit := none
  volume_serial_changes : Option Unit := none

/-- `get_adapter_by_id`: linear scan of the enumerated adapters, `None` when
absent (enumeration failures also surface as `None`). -/
def get_adapter_by_id (adapters : List NetworkAdapterRec) (adapter_id : String) :
    Option NetworkAdapterRec :=
  adapters.find? (fun a => a.id = adapter_id)

/-- One iteration of the `mac_changes` validation loop (identical in the
Windows and macOS managers): missing adapter, non-modifiable adapter or
syntactically invalid MAC appends an error and clears `valid`; otherwise a
warning is appended and a `low` risk is raised to `medium`. -/
def macChangeStep (adapters : List NetworkAdapterRec) (st : ValidationState)
    (p : String × String) : ValidationState :=
  match get_adapter_by_id adapters p.1 with
  | none =>
    { st with errors := st.errors ++ ["找不到网络适配器: " ++ p.1], valid := false }
  | some a =>
    if a.can_modify = false then
      { st with errors := st.errors ++ ["网络适配器不支持修改: " ++ a.name], valid := false }
    else if validate_mac_address p.2 = false then
      { st with errors := st.errors ++ ["无效的MAC地址格式: " ++ p.2], valid := false }
    else
      { st with
        warnings := st.warnings ++ ["修改MAC地址可能影响网络连接: " ++ a.name],
        risk_level := if st.risk_level = .low then .medium else st.risk_level }

/-- The `mac_changes` rule: absent key leaves the state unchanged, otherwise
the loop above runs over the entries in order. -/
def ruleMacChanges (adapters : List NetworkAdapterRec) (ch : Changes)
    (st : ValidationState) : ValidationState :=
  match ch.mac_changes with
  | none => st
  | some macs => macs.foldl (macChangeStep adapters) st

/-- Windows `machine_guid` rule: a syntactically valid GUID appends a warning
and sets risk to `high`; `uuid.UUID` rejection appends an error and clears
`valid`. -/
def ruleMachineGuidWin (ch : Changes) (st : ValidationState) : ValidationState :=
  match ch.machine_guid with
  | none => st
  | some g =>
    if pyUUIDValid g then
      { st with
        warnings := st.warnings ++ ["修改机器GUID可能影响系统激活和某些应用程序"],
        risk_level := .high }
    else
      { st with errors := st.errors ++ ["无效的GUID格式: " ++ g], valid := false }

/-- Windows `volume_serial_changes` rule: always an error, `valid := False`,
risk `critical`. -/
def ruleVolumeWin (ch : Changes) (st : ValidationState) : ValidationState :=
  match ch.volume_serial_changes with
  | none => st
  | some _ =>
    { st with
      errors := st.errors ++ ["磁盘卷序列号修改功能暂未实现（风险过高）"],
      valid := false,
      risk_level := .critical }

/-- macOS `hardware_uuid` rule: always an error, `valid := False`, risk
`critical`. -/
def ruleHardwareUuidMac (ch : Changes) (st : ValidationState) : ValidationState :=
  match ch.hardware_uuid with
  | none => st
  | some _ =>
    { st with
      errors := st.errors ++ ["macOS不支持修改硬件UUID"],
      valid := false,
      risk_level := .critical }

/-- macOS `volume_serial_changes` rule: always an error, `valid := False`,
risk `critical`. -/
def ruleVolumeMac (ch : Changes) (st : ValidationState) : ValidationState :=
  match ch.volume_serial_changes with
  | none => st
  | some _ =>
    { st with
      errors := st.errors ++ ["macOS不支持修改卷序列号"],
      valid := false,
      risk_level := .critical }

/-- macOS final permission rule: a present, non-empty `mac_changes` dict
without the sudo permission appends an error and clears `valid` (risk is
untouched). -/
def rulePermMac (sudoOk : Bool) (ch : Changes) (st : ValidationState) : ValidationState :=
  match ch.mac_changes with
  | none => st
  | some macs =>
    if macs ≠ [] ∧ sudoOk = false then
      { st with errors := st.errors ++ ["修改MAC地址需要sudo权限"], valid := false }
    else st

/-- `WindowsFingerprintManager.validate_fingerprint_changes`: the three rules
in source order over the initial state. -/
def validate_fingerprint_changes_windows (adapters : List NetworkAdapterRec)
    (ch : Changes) : ValidationState :=
  ruleVolumeWin ch (ruleMachineGuidWin ch (ruleMacChanges adapters ch initValidation))

/-- `MacOSFingerprintManager.validate_fingerprint_changes`: the four rules in
source order over the initial state. -/
def validate_fingerprint_changes_macos (adapters : List NetworkAdapterRec)
    (sudoOk : Bool) (ch : Changes) : ValidationState :=
  rulePermMac sudoOk ch
    (ruleVolumeMac ch (ruleHardwareUuidMac ch (ruleMacChanges adapters ch initValidation)))

/-! ### Invariants of the validation rules -/

/-- A state whose error list is non-empty has `valid = False`. -/
def errConsistent (st : ValidationState) : Prop := st.errors ≠ [] → st.valid = false

lemma riskRank_le_three (r : Risk) : riskRank r ≤ 3 := by cases r <;> decide

lemma macChangeStep_err (adapters : List NetworkAdapterRec) (p : String × String)
    {st : ValidationState} (h : errConsistent st) :
    errConsistent (macChangeStep adapters st p) := by
  cases hA : get_adapter_by_id adapters p.1 with
  | none => simp only [macChangeStep, hA]; intro _; rfl
  | some a =>
    simp only [macChangeStep, hA]
    split_ifs with h1 h2 h3 <;>
      first
        | (intro _; rfl)
        | (intro hne; exact h hne)

lemma foldl_macChangeStep_err (adapters : List NetworkAdapterRec) :
    ∀ (l : List (String × String)) (st : ValidationState), errConsistent st →
      errConsistent (l.foldl (macChangeStep adapters) st)
  | [], _, h => h
  | p :: rest, st, h =>
    foldl_macChangeStep_err adapters rest (macChangeStep adapters st p)
      (macChangeStep_err adapters p h)

lemma ruleMacChanges_err (adapters : List NetworkAdapterRec) (ch : Changes)
    {st : ValidationState} (h : errConsistent st) :
    errConsistent (ruleMacChanges adapters ch st) := by
  cases hM : ch.mac_changes with
  | none => simpa only [ruleMacChanges, hM] using h
  | some macs =>
    simp only [ruleMacChanges, hM]
    exact foldl_macChangeStep_err adapters macs st h

lemma ruleMachineGuidWin_err (ch : Changes) {st : ValidationState} (h : errConsistent st) :
    errConsistent (ruleMachineGuidWin ch st) := by
  cases hG : ch.machine_guid with
  | none => simpa only [ruleMachineGuidWin, hG] using h
  | some g =>
    simp only [ruleMachineGuidWin, hG]
    split_ifs with h1
    · intro hne; exact h hne
    · intro _; rfl

lemma ruleVolumeWin_err (ch : Changes) {st : ValidationState} (h : errConsistent st) :
    errConsistent (ruleVolumeWin ch st) := by
  cases hV : ch.volume_serial_changes with
  | none => simpa only [ruleVolumeWin, hV] using h
  | some _ => simp only [ruleVolumeWin, hV]; intro _; rfl

lemma ruleHardwareUuidMac_err (ch : Changes) {st : ValidationState} (h : errConsistent st) :
    errConsistent (ruleHardwareUuidMac ch st) := by
  cases hU : ch.hardware_uuid with
  | none => simpa only [ruleHardwareUuidMac, hU] using h
  | some _ => simp only [ruleHardwareUuidMac, hU]; intro _; rfl

lemma ruleVolumeMac_err (ch : Changes) {st : ValidationState} (h : errConsistent st) :
    errConsistent (ruleVolumeMac ch st) := by
  cases hV : ch.volume_serial_changes with
  | none => simpa only [ruleVolumeMac, hV] using h
  | some _ => simp only [ruleVolumeMac, hV]; intro _; rfl

lemma rulePermMac_err (sudoOk : Bool) (ch : Changes) {st : ValidationState}
    (h : errConsistent st) : errConsistent (rulePermMac sudoOk ch st) := by
  cases hM : ch.mac_changes with
  | none => simpa only [rulePermMac, hM] using h
  | some macs =>
    simp only [rulePermMac, hM]
    split_ifs with h1
    · intro _; rfl
    · intro hne; exact h hne

lemma rulePermMac_risk (sudoOk : Bool) (ch : Changes) (st : ValidationState) :
    (rulePermMac sudoOk ch st).risk_level = st.risk_level := by
  cases hM : ch.mac_changes with
  | none => simp only [rulePermMac, hM]
  | some macs =>
    simp only [rulePermMac, hM]
    split_ifs <;> rfl

lemma rulePermMac_valid_false (sudoOk : Bool) (ch : Changes) {st : ValidationState}
    (h : st.valid = false) : (rulePermMac sudoOk ch st).valid = false := by
  cases hM : ch.mac_changes with
  | none => simpa only [rulePermMac, hM] using h
  | some macs =>
    simp only [rulePermMac, hM]
    split_ifs
    · rfl
    · exact h

lemma macChangeStep_risk_le (adapters : List NetworkAdapterRec) (st : ValidationState)
    (p : String × String) :
    riskRank st.risk_level ≤ riskRank (macChangeStep adapters st p).risk_level := by
  cases hA : get_adapter_by_id adapters p.1 with
  | none => simp only [macChangeStep, hA]; exact le_refl _
  | some a =>
    simp only [macChangeStep, hA]
    split_ifs with h1 h2 h3
    · exact le_refl _
    · exact le_refl _
    · simp only [h3, riskRank]; decide
    · exact le_refl _

lemma macChangeStep_risk_cap (adapters : List NetworkAdapterRec) (st : ValidationState)
    (p : String × String) :
    riskRank (macChangeStep adapters st p).risk_level ≤ max (riskRank st.risk_level) 1 := by
  cases hA : get_adapter_by_id adapters p.1 with
  | none => simp only [macChangeStep, hA]; exact le_max_left _ _
  | some a =>
    simp only [macChangeStep, hA]
    split_ifs with h1 h2 h3
    · exact le_max_left _ _
    · exact le_max_left _ _
    · exact le_max_right _ _
    · exact le_max_left _ _

lemma foldl_macChangeStep_risk_le (adapters : List NetworkAdapterRec) :
    ∀ (l : List (String × String)) (st : ValidationState),
      riskRank st.risk_level ≤ riskRank (l.foldl (macChangeStep adapters) st).risk_level
  | [], _ => le_refl _
  | p :: rest, st =>
    le_trans (macChangeStep_risk_le adapters st p)
      (foldl_macChangeStep_risk_le adapters rest (macChangeStep adapters st p))

lemma foldl_macChangeStep_risk_cap (adapters : List NetworkAdapterRec) :
    ∀ (l : List (String × String)) (st : ValidationState),
      riskRank ((l.foldl (macChangeStep adapters) st).risk_level) ≤
        max (riskRank st.risk_level) 1
  | [], _ => le_max_left _ _
  | p :: rest, st => by
    have h1 := macChangeStep_risk_cap adapters st p
    have h2 := foldl_macChangeStep_risk_cap adapters rest (macChangeStep adapters st p)
    simp only [List.foldl]
    omega

lemma ruleMacChanges_risk_le (adapters : List NetworkAdapterRec) (ch : Changes)
    (st : ValidationState) :
    riskRank st.risk_level ≤ riskRank (ruleMacChanges adapters ch st).risk_level := by
  cases hM : ch.mac_changes with
  | none => simp only [ruleMacChanges, hM]; exact le_refl _
  | some macs =>
    simp only [ruleMacChanges, hM]
    exact foldl_macChangeStep_risk_le adapters macs st

lemma ruleMacChanges_risk_cap (adapters : List NetworkAdapterRec) (ch : Changes)
    (st : ValidationState) :
    riskRank (ruleMacChanges adapters ch st).risk_level ≤ max (riskRank st.risk_level) 1 := by
  cases hM : ch.mac_changes with
  | none => simp only [ruleMacChanges, hM]; exact le_max_left _ _
  | some macs =>
    simp only [ruleMacChanges, hM]
    exact foldl_macChangeStep_risk_cap adapters macs st

lemma ruleMachineGuidWin_risk_le (ch : Changes) (st : ValidationState)
    (hcap : riskRank st.risk_level ≤ 2) :
    riskRank st.risk_level ≤ riskRank (ruleMachineGuidWin ch st).risk_level := by
  cases hG : ch.machine_guid with
  | none => simp only [ruleMachineGuidWin, hG]; exact le_refl _
  | some g =>
    simp only [ruleMachineGuidWin, hG]
    split_ifs with h1
    · exact hcap
    · exact le_refl _

lemma ruleVolumeWin_risk_le (ch : Changes) (st : ValidationState) :
    riskRank st.risk_level ≤ riskRank (ruleVolumeWin ch st).risk_level := by
  cases hV : ch.volume_serial_changes with
  | none => simp only [ruleVolumeWin, hV]; exact le_refl _
  | some _ => simp only [ruleVolumeWin, hV]; exact riskRank_le_three _

lemma ruleHardwareUuidMac_risk_le (ch : Changes) (st : ValidationState) :
    riskRank st.risk_level ≤ riskRank (ruleHardwareUuidMac ch st).risk_level := by
  cases hU : ch.hardware_uuid with
  | none => simp only [ruleHardwareUuidMac, hU]; exact le_refl _
  | some _ => simp only [ruleHardwareUuidMac, hU]; exact riskRank_le_three _

lemma ruleVolumeMac_risk_le (ch : Changes) (st : ValidationState) :
    riskRank st.risk_level ≤ riskRank (ruleVolumeMac ch st).risk_level := by
  cases hV : ch.volume_serial_changes with
  | none => simp only [ruleVolumeMac, hV]; exact le_refl _
  | some _ => simp only [ruleVolumeMac, hV]; exact riskRank_le_three _

/-- C6, theorem.  Over every change-set and adapter environment, on both
platforms: a validation result with a non-empty error list has
`valid = False`, and the risk level is non-decreasing (in the order
low < medium < high < critical) along the chain of per-kind rules the
validator applies, so no later rule downgrades it. -/
theorem C6_validation_invariants (adapters : List NetworkAdapterRec) (sudoOk : Bool)
    (ch : Changes) :
    ((validate_fingerprint_changes_windows adapters ch).errors ≠ [] →
      (validate_fingerprint_changes_windows adapters ch).valid = false) ∧
    ((validate_fingerprint_changes_macos adapters sudoOk ch).errors ≠ [] →
      (validate_fingerprint_changes_macos adapters sudoOk ch).valid = false) ∧
    (riskRank initValidation.risk_level ≤
        riskRank (ruleMacChanges adapters ch initValidation).risk_level ∧
      riskRank (ruleMacChanges adapters ch initValidation).risk_level ≤
        riskRank (ruleMachineGuidWin ch (ruleMacChanges adapters ch initValidation)).risk_level ∧
      riskRank (ruleMachineGuidWin ch (ruleMacChanges adapters ch initValidation)).risk_level ≤
        riskRank (validate_fingerprint_changes_windows adapters ch).risk_level) ∧
    (riskRank initValidation.risk_level ≤
        riskRank (ruleMacChanges adapters ch initValidation).risk_level ∧
      riskRank (ruleMacChanges adapters ch initValidation).risk_level ≤
        riskRank (ruleHardwareUuidMac ch (ruleMacChanges adapters ch initValidation)).risk_level ∧
      riskRank (ruleHardwareUuidMac ch (ruleMacChanges adapters ch initValidation)).risk_level ≤
        riskRank (ruleVolumeMac ch
          (ruleHardwareUuidMac ch (ruleMacChanges adapters ch initValidation))).risk_level ∧
      riskRank (ruleVolumeMac ch
          (ruleHardwareUuidMac ch (ruleMacChanges adapters ch initValidation))).risk_level ≤
        riskRank (validate_fingerprint_changes_macos adapters sudoOk ch).risk_level) := by
  have hinit : errConsistent initValidation := by intro h; exact absurd rfl h
  refine ⟨?_, ?_, ⟨?_, ?_, ?_⟩, ⟨?_, ?_, ?_, ?_⟩⟩
  · exact ruleVolumeWin_err ch
      (ruleMachineGuidWin_err ch (ruleMacChanges_err adapters ch hinit))
  · exact rulePermMac_err sudoOk ch
      (ruleVolumeMac_err ch (ruleHardwareUuidMac_err ch (ruleMacChanges_err adapters ch hinit)))
  · exact ruleMacChanges_risk_le adapters ch initValidation
  · refine ruleMachineGuidWin_risk_le ch _ ?_
    have hcap := ruleMacChanges_risk_cap adapters ch initValidation
    have h0 : riskRank initValidation.risk_level = 0 := rfl
    rw [h0] at hcap
    omega
  · exact ruleVolumeWin_risk_le ch _
  · exact ruleMacChanges_risk_le adapters ch initValidation
  · exact ruleHardwareUuidMac_risk_le ch _
  · exact ruleVolumeMac_risk_le ch _
  · rw [validate_fingerprint_changes_macos, rulePermMac_risk]

/-- Witness for C6 at a concrete change-set (a volume-serial change) whose
validation produces a non-empty error list. -/
theorem C6_witness :
    (validate_fingerprint_changes_windows [] { volume_serial_changes := some () }).errors ≠ [] ∧
    (validate_fingerprint_changes_windows [] { volume_serial_changes := some () }).valid = false ∧
    (validate_fingerprint_changes_macos [] true { volume_serial_changes := some () }).errors ≠ [] ∧
    (validate_fingerprint_changes_macos [] true { volume_serial_changes := some () }).valid = false := by
  have h := C6_validation_invariants [] true { volume_serial_changes := some () }
  exact ⟨by decide, h.1 (by decide), by decide, h.2.1 (by decide)⟩

/-- C3, theorem.  Every change-set containing a `volume_serial_changes`
entry is rejected by `validate_fingerprint_changes` on both platforms with
`valid = False` and risk level `critical`. -/
theorem C3_volume_changes_rejected (adapters : List NetworkAdapterRec) (sudoOk : Bool)
    (ch : Changes) (h : ch.volume_serial_changes.isSome = true) :
    ((validate_fingerprint_changes_windows adapters ch).valid = false ∧
      (validate_fingerprint_changes_windows adapters ch).risk_level = .critical) ∧
    ((validate_fingerprint_changes_macos adapters sudoOk ch).valid = false ∧
      (validate_fingerprint_changes_macos adapters sudoOk ch).risk_level = .critical) := by
  cases hvol : ch.volume_serial_changes with
  | none => rw [hvol] at h; simp at h
  | some u =>
    constructor
    · unfold validate_fingerprint_changes_windows ruleVolumeWin
      rw [hvol]
      exact ⟨rfl, rfl⟩
    · unfold validate_fingerprint_changes_macos
      constructor
      · refine rulePermMac_valid_false sudoOk ch ?_
        unfold ruleVolumeMac
        rw [hvol]
      · rw [rulePermMac_risk]
        unfold ruleVolumeMac
        rw [hvol]

/-- Witness for C3 at a concrete volume-serial change-set. -/
theorem C3_witness :
    ((validate_fingerprint_changes_windows [] { volume_serial_changes := some () }).valid = false ∧
      (validate_fingerprint_changes_windows []
        { volume_serial_changes := some () }).risk_level = .critical) ∧
    ((validate_fingerprint_changes_macos [] true
        { volume_serial_changes := some () }).valid = false ∧
      (validate_fingerprint_changes_macos [] true
        { volume_serial_changes := some () }).risk_level = .critical) :=
  C3_volume_changes_rejected [] true { volume_serial_changes := some () } rfl

/-- C4, theorem.  A change-set containing only a machine-identity change:
on Windows with a syntactically valid 128-bit identifier the verdict is
`valid = True` with risk level at least `high` (indeed exactly `high`); on
macOS the verdict is `valid = False`. -/
theorem C4_machine_identity_validation (adapters : List NetworkAdapterRec) (sudoOk : Bool)
    (g : String) (hg : pyUUIDValid g = true) :
    (validate_fingerprint_changes_windows adapters { machine_guid := some g }).valid = true ∧
    riskRank .high ≤
      riskRank (validate_fingerprint_changes_windows adapters
        { machine_guid := some g }).risk_level ∧
    (validate_fingerprint_changes_macos adapters sudoOk
      { hardware_uuid := some () }).valid = false := by
  refine ⟨?_, ?_, ?_⟩
  · simp [validate_fingerprint_changes_windows, ruleVolumeWin, ruleMachineGuidWin,
      ruleMacChanges, hg, initValidation]
  · simp [validate_fingerprint_changes_windows, ruleVolumeWin, ruleMachineGuidWin,
      ruleMacChanges, hg, initValidation, riskRank]
  · simp [validate_fingerprint_changes_macos, rulePermMac, ruleVolumeMac,
      ruleHardwareUuidMac, ruleMacChanges, initValidation]

/-- Witness for C4 at a concrete syntactically valid GUID. -/
theorem C4_witness :
    pyUUIDValid "12345678-1234-1234-1234-123456789abc" = true ∧
    (validate_fingerprint_changes_windows []
      { machine_guid := some "12345678-1234-1234-1234-123456789abc" }).valid = true ∧
    (validate_fingerprint_changes_macos [] true { hardware_uuid := some () }).valid = false := by
  have h := C4_machine_identity_validation [] true
    "12345678-1234-1234-1234-123456789abc" (by decide)
  exact ⟨by decide, h.1, h.2.2⟩

/-! ## Mutating fingerprint-engine operations

The engine methods are modelled as pure functions from an explicit
environment (enumerated adapters, privilege-check results, outcomes of the
native write primitives) to a pair of (trace of native *write* events,
`Except` result).  Native reads (WMI queries, `ifconfig` listing, registry
reads) are not traced.  Each `try/except` wrapper that re-raises with a
message prefix is modelled by mapping the error value. -/

/-- The exception classes of core/exceptions.py raised on these paths. -/
inductive JanusErr
  | operationError (msg : String)
  | networkAdapterError (msg : String)
  | registryError (msg : String)
  | permissionError (msg : String)
deriving DecidableEq

/-- Message carried by an exception (`str(e)` used in wrapping f-strings). -/
def JanusErr.msg : JanusErr → String
  | .operationError m => m
  | .networkAdapterError m => m
  | .registryError m => m
  | .permissionError m => m

/-- True exactly when the result is a raised `OperationError`. -/
def resultIsOperationError {α : Type} : Except JanusErr α → Bool
  | .error (.operationError _) => true
  | _ => false

/-- True exactly when the result is a raised (repo-defined) `PermissionError`. -/
def resultIsPermissionError {α : Type} : Except JanusErr α → Bool
  | .error (.permissionError _) => true
  | _ => false

/-- Native write-side effects of the engines, in execution order. -/
inductive FpEvent
  | fingerprintBackup                       -- backup_current_fingerprint file write
  | regKeyBackup (path : String)            -- backup_registry_key inside write/delete
  | regWrite (path : String) (name : String) (value : String)   -- winreg.SetValueEx
  | regDelete (path : String) (name : String)                   -- winreg.DeleteValue
  | adapterRestart (name : String)          -- netsh disable+enable
  | sudoIfconfigSet (iface : String) (mac : String)  -- sudo ifconfig <iface> ether <mac>
  | ifaceDown (iface : String)
  | ifaceUp (iface : String)
deriving DecidableEq

/-- Windows engine environment: adapter enumeration result, the
`IsUserAnAdmin` answer, and the outcomes of the native primitives when they
are reached (`regWriteOk`/`regDeleteOk` model `winreg` raising or not;
`restartOk` is the `netsh` outcome, which the code logs but ignores;
`backupOk`/`backupId` model `backup_current_fingerprint`). -/
structure WinEnv where
  adapters : List NetworkAdapterRec
  admin : Bool
  backupOk : Bool
  backupId : String
  regWriteOk : Bool
  regDeleteOk : Bool
  restartOk : Bool

/-- macOS engine environment: adapter enumeration result, the sudo
permission check (`validate_permissions_for_operation('modify_mac_address')`),
and outcomes of the sudo-driven primitives. -/
structure MacEnv where
  adapters : List NetworkAdapterRec
  sudoOk : Bool
  backupOk : Bool
  backupId : String
  sudoCmdOk : Bool
  sudoStderr : String
  upOk : Bool

/-- Python truthiness of an optional string (`None` and `''` are falsy). -/
def pyTruthyOptStr : Option String → Bool
  | none => false
  | some s => s ≠ ""

/-- Python `a or b` for an optional string left operand. -/
def pyOrStr (o : Option String) (d : String) : String :=
  match o with
  | none => d
  | some s => if s = "" then d else s

/-- `new_mac.replace(':', '').replace('-', '').upper()`. -/
def formatMacForRegistry (new_mac : String) : String :=
  String.mk (((new_mac.data.filter (fun c => c ≠ ':')).filter
    (fun c => c ≠ '-')).map Char.toUpper)

/-- `NetworkManager.modify_mac_address` (Windows network manager): MAC
syntax check, adapter lookup, modifiability check, registry write of
`NetworkAddress` (which first backs up the key), adapter restart.  The
restart outcome is ignored: the method returns `True` once the registry
write succeeded.  Errors are re-raised as `NetworkAdapterError` with the
`修改MAC地址失败: ` prefix. -/
def network_modify_mac_address_windows (env : WinEnv) (adapter_id new_mac : String) :
    List FpEvent × Except JanusErr Bool :=
  if validate_mac_address new_mac = false then
    ([], .error (.networkAdapterError ("修改MAC地址失败: " ++ "无效的MAC地址格式: " ++ new_mac)))
  else
    match get_adapter_by_id env.adapters adapter_id with
    | none =>
      ([], .error (.networkAdapterError ("修改MAC地址失败: " ++ "找不到网络适配器: " ++ adapter_id)))
    | some a =>
      if a.can_modify = false ∨ pyTruthyOptStr a.registry_path = false then
        ([], .error (.networkAdapterError
          ("修改MAC地址失败: " ++ "网络适配器不支持MAC地址修改: " ++ a.name)))
      else
        let path := (a.registry_path).getD ""
        if env.regWriteOk then
          ([.regKeyBackup path, .regWrite path "NetworkAddress" (formatMacForRegistry new_mac),
            .adapterRestart a.name], .ok true)
        else
          ([.regKeyBackup path], .error (.networkAdapterError
            ("修改MAC地址失败: " ++ "注册表写入权限不足: " ++ path)))

/-- `WindowsFingerprintManager.modify_mac_address`: admin check, then the
(redundant) per-operation permission check — both reduce to
`IsUserAnAdmin` — then delegation; every failure is re-raised as
`OperationError`. -/
def modify_mac_address_windows (env : WinEnv) (adapter_id new_mac : String) :
    List FpEvent × Except JanusErr Bool :=
  if env.admin = false then
    ([], .error (.operationError ("修改MAC地址失败: " ++ "修改MAC地址需要管理员权限")))
  else
    let r := network_modify_mac_address_windows env adapter_id new_mac
    (r.1, match r.2 with
      | .ok b => .ok b
      | .error e => .error (.operationError ("修改MAC地址失败: " ++ e.msg)))

/-- `NetworkManager.restore_original_mac` (Windows): adapter lookup, delete
the `NetworkAddress` override (with registry-key backup), restart; the
delete's return value and the restart outcome are ignored. -/
def network_restore_original_mac_windows (env : WinEnv) (adapter_id : String) :
    List FpEvent × Except JanusErr Bool :=
  match get_adapter_by_id env.adapters adapter_id with
  | none =>
    ([], .error (.networkAdapterError ("恢复MAC地址失败: " ++ "找不到网络适配器: " ++ adapter_id)))
  | some a =>
    if pyTruthyOptStr a.registry_path = false then
      ([], .error (.networkAdapterError ("恢复MAC地址失败: " ++ "找不到网络适配器: " ++ adapter_id)))
    else
      let path := (a.registry_path).getD ""
      if env.regDeleteOk then
        ([.regKeyBackup path, .regDelete path "NetworkAddress", .adapterRestart a.name], .ok true)
      else
        ([.regKeyBackup path], .error (.networkAdapterError
          ("恢复MAC地址失败: " ++ "注册表删除权限不足: " ++ path)))

/-- `WindowsFingerprintManager.restore_original_mac`: admin check, then
delegation, all failures re-raised as `OperationError`. -/
def restore_original_mac_windows (env : WinEnv) (adapter_id : String) :
    List FpEvent × Except JanusErr Bool :=
  if env.admin = false then
    ([], .error (.operationError ("恢复MAC地址失败: " ++ "恢复MAC地址需要管理员权限")))
  else
    let r := network_restore_original_mac_windows env adapter_id
    (r.1, match r.2 with
      | .ok b => .ok b
      | .error e => .error (.operationError ("恢复MAC地址失败: " ++ e.msg)))

/-- Registry path of the Windows machine GUID. -/
def cryptographyPath : String := "HKEY_LOCAL_MACHINE\\SOFTWARE\\Microsoft\\Cryptography"

/-- `WMIManager.modify_machine_guid` with an explicit GUID argument (the
`None`-argument branch, which generates a fresh `uuid4`, is not reachable
from `apply_fingerprint_changes`): GUID syntax check, then registry write of
`MachineGuid`; every failure is re-raised as `OperationError`. -/
def wmi_modify_machine_guid (env : WinEnv) (new_guid : String) :
    List FpEvent × Except JanusErr Bool :=
  if pyUUIDValid new_guid = false then
    ([], .error (.operationError ("修改机器GUID失败: " ++ "无效的GUID格式: " ++ new_guid)))
  else if env.regWriteOk then
    ([.regKeyBackup cryptographyPath, .regWrite cryptographyPath "MachineGuid" new_guid], .ok true)
  else
    ([.regKeyBackup cryptographyPath], .error (.operationError
      ("修改机器GUID失败: " ++ "注册表写入权限不足: " ++ cryptographyPath)))

/-- `WindowsFingerprintManager.modify_machine_guid`: admin check, then the
per-operation permission check (again `IsUserAnAdmin`), then delegation,
failures re-raised as `OperationError`. -/
def modify_machine_guid_windows (env : WinEnv) (new_guid : String) :
    List FpEvent × Except JanusErr Bool :=
  if env.admin = false then
    ([], .error (.operationError ("修改机器GUID失败: " ++ "修改机器GUID需要管理员权限")))
  else
    let r := wmi_modify_machine_guid env new_guid
    (r.1, match r.2 with
      | .ok b => .ok b
      | .error e => .error (.operationError ("修改机器GUID失败: " ++ e.msg)))

/-- `WindowsFingerprintManager.modify_volume_serial`: admin checks, then the
declared-but-unimplemented path returns `False` without any native write. -/
def modify_volume_serial_windows (env : WinEnv) (_drive _new_serial : String) :
    List FpEvent × Except JanusErr Bool :=
  if env.admin = false then
    ([], .error (.operationError ("修改磁盘卷序列号失败: " ++ "修改磁盘卷序列号需要管理员权限")))
  else
    ([], .ok false)

/-- `MacOSNetworkManager.modify_mac_address`: MAC syntax check, adapter
lookup, modifiability check, sudo permission check, then
`sudo ifconfig <iface> ether <mac>`; on command success the method returns
`True` whether or not the post-write verification sees the new value. -/
def network_modify_mac_address_macos (env : MacEnv) (adapter_id new_mac : String) :
    List FpEvent × Except JanusErr Bool :=
  if validate_mac_address new_mac = false then
    ([], .error (.networkAdapterError ("修改MAC地址失败: " ++ "无效的MAC地址格式: " ++ new_mac)))
  else
    match get_adapter_by_id env.adapters adapter_id with
    | none =>
      ([], .error (.networkAdapterError ("修改MAC地址失败: " ++ "找不到网络适配器: " ++ adapter_id)))
    | some a =>
      if a.can_modify = false then
        ([], .error (.networkAdapterError
          ("修改MAC地址失败: " ++ "网络适配器不支持MAC地址修改: " ++ a.name)))
      else if env.sudoOk = false then
        ([], .error (.networkAdapterError ("修改MAC地址失败: " ++ "修改MAC地址需要sudo权限")))
      else
        let iface := pyOrStr a.interface_name a.id
        if env.sudoCmdOk then
          ([.sudoIfconfigSet iface new_mac], .ok true)
        else
          ([.sudoIfconfigSet iface new_mac], .error (.networkAdapterError
            ("修改MAC地址失败: " ++ "MAC地址修改失败: " ++ env.sudoStderr)))

/-- `MacOSFingerprintManager.modify_mac_address`: sudo permission check
first, then delegation, failures re-raised as `OperationError`. -/
def modify_mac_address_macos (env : MacEnv) (adapter_id new_mac : String) :
    List FpEvent × Except JanusErr Bool :=
  if env.sudoOk = false then
    ([], .error (.operationError ("修改MAC地址失败: " ++ "修改MAC地址需要sudo权限")))
  else
    let r := network_modify_mac_address_macos env adapter_id new_mac
    (r.1, match r.2 with
      | .ok b => .ok b
      | .error e => .error (.operationError ("修改MAC地址失败: " ++ e.msg)))

/-- `MacOSNetworkManager.restore_original_mac`: adapter lookup, then cycle
the interface down and up; a failing `down` is only logged, the result is
the `up` outcome. -/
def network_restore_original_mac_macos (env : MacEnv) (adapter_id : String) :
    List FpEvent × Except JanusErr Bool :=
  match get_adapter_by_id env.adapters adapter_id with
  | none =>
    ([], .error (.networkAdapterError ("恢复MAC地址失败: " ++ "找不到网络适配器: " ++ adapter_id)))
  | some a =>
    let iface := pyOrStr a.interface_name a.id
    ([.ifaceDown iface, .ifaceUp iface], .ok env.upOk)

/-- `MacOSFingerprintManager.restore_original_mac`: sudo permission check
first, then delegation, failures re-raised as `OperationError`. -/
def restore_original_mac_macos (env : MacEnv) (adapter_id : String) :
    List FpEvent × Except JanusErr Bool :=
  if env.sudoOk = false then
    ([], .error (.operationError ("恢复MAC地址失败: " ++ "恢复MAC地址需要sudo权限")))
  else
    let r := network_restore_original_mac_macos env adapter_id
    (r.1, match r.2 with
      | .ok b => .ok b
      | .error e => .error (.operationError ("恢复MAC地址失败: " ++ e.msg)))

/-- `MacOSFingerprintManager.modify_machine_guid`: unconditionally raises
`OperationError` (the hardware UUID is read-only) — no permission check and
no native access. -/
def modify_machine_guid_macos (_new_guid : String) :
    List FpEvent × Except JanusErr Bool :=
  ([], .error (.operationError ("修改硬件UUID失败: " ++ "macOS不支持修改硬件UUID")))

/-- `MacOSFingerprintManager.modify_volume_serial`: unconditionally raises
`OperationError` — no permission check and no native access. -/
def modify_volume_serial_macos (_drive _new_serial : String) :
    List FpEvent × Except JanusErr Bool :=
  ([], .error (.operationError ("修改卷序列号失败: " ++ "macOS不支持修改卷序列号")))

/-- `backup_current_fingerprint` (Windows): snapshots the fingerprint to a
JSON file (one traced backup attempt); on failure an `OperationError` is
raised, which aborts the enclosing `apply_fingerprint_changes`. -/
def backup_current_fingerprint_windows (env : WinEnv) :
    List FpEvent × Except JanusErr String :=
  if env.backupOk then ([.fingerprintBackup], .ok env.backupId)
  else ([.fingerprintBackup], .error (.operationError "备份系统指纹失败: 写入备份文件失败"))

/-- `backup_current_fingerprint` (macOS): same contract. -/
def backup_current_fingerprint_macos (env : MacEnv) :
    List FpEvent × Except JanusErr String :=
  if env.backupOk then ([.fingerprintBackup], .ok env.backupId)
  else ([.fingerprintBackup], .error (.operationError "备份系统指纹失败: 写入备份文件失败"))

/-- Per-item result entry: exceptions from an individual mutation are caught
and recorded as `False`. -/
def resultEntry (key : String) (r : List FpEvent × Except JanusErr Bool) :
    List FpEvent × (String × Bool) :=
  (r.1, (key, match r.2 with | .ok b => b | .error _ => false))

/-- `WindowsFingerprintManager.apply_fingerprint_changes`: validate first and
raise `OperationError` when invalid; otherwise back up the fingerprint, then
apply the MAC changes in order and the machine-GUID change, recording a
per-item success map (individual failures caught as `False`). -/
def apply_fingerprint_changes_windows (env : WinEnv) (ch : Changes) :
    List FpEvent × Except JanusErr (List (String × Bool)) :=
  if (validate_fingerprint_changes_windows env.adapters ch).valid = false then
    ([], .error (.operationError ("应用指纹修改失败: " ++ "指纹修改验证失败")))
  else
    let b := backup_current_fingerprint_windows env
    match b.2 with
    | .error e => (b.1, .error (.operationError ("应用指纹修改失败: " ++ e.msg)))
    | .ok _ =>
      let macPart : List FpEvent × List (String × Bool) :=
        match ch.mac_changes with
        | none => ([], [])
        | some macs =>
          macs.foldl (fun acc p =>
            let r := resultEntry ("mac_" ++ p.1) (modify_mac_address_windows env p.1 p.2)
            (acc.1 ++ r.1, acc.2 ++ [r.2])) ([], [])
      let guidPart : List FpEvent × List (String × Bool) :=
        match ch.machine_guid with
        | none => ([], [])
        | some g =>
          let r := resultEntry "machine_guid" (modify_machine_guid_windows env g)
          (r.1, [r.2])
      (b.1 ++ macPart.1 ++ guidPart.1, .ok (macPart.2 ++ guidPart.2))

/-- `MacOSFingerprintManager.apply_fingerprint_changes`: validate first and
raise `OperationError` when invalid; otherwise back up the fingerprint, then
apply the MAC changes; a present `hardware_uuid` or `volume_serial_changes`
key is recorded as `False` without any native access. -/
def apply_fingerprint_changes_macos (env : MacEnv) (ch : Changes) :
    List FpEvent × Except JanusErr (List (String × Bool)) :=
  if (validate_fingerprint_changes_macos env.adapters env.sudoOk ch).valid = false then
    ([], .error (.operationError ("应用指纹修改失败: " ++ "指纹修改验证失败")))
  else
    let b := backup_current_fingerprint_macos env
    match b.2 with
    | .error e => (b.1, .error (.operationError ("应用指纹修改失败: " ++ e.msg)))
    | .ok _ =>
      let macPart : List FpEvent × List (String × Bool) :=
        match ch.mac_changes with
        | none => ([], [])
        | some macs =>
          macs.foldl (fun acc p =>
            let r := resultEntry ("mac_" ++ p.1) (modify_mac_address_macos env p.1 p.2)
            (acc.1 ++ r.1, acc.2 ++ [r.2])) ([], [])
      let uuidPart : List (String × Bool) :=
        match ch.hardware_uuid with
        | none => []
        | some _ => [("hardware_uuid", false)]
      let volPart : List (String × Bool) :=
        match ch.volume_serial_changes with
        | none => []
        | some _ => [("volume_serial", false)]
      (b.1 ++ macPart.1, .ok (macPart.2 ++ uuidPart ++ volPart))

/-! ### C2: permission gating of the mutating engine calls -/

/-- A Windows environment without administrator privilege (everything else
healthy). -/
def winEnvNoAdmin : WinEnv :=
  { adapters := [], admin := false, backupOk := true, backupId := "b1",
    regWriteOk := true, regDeleteOk := true, restartOk := true }

/-- A macOS environment without the sudo permission. -/
def macEnvNoSudo : MacEnv :=
  { adapters := [], sudoOk := false, backupOk := true, backupId := "b1",
    sudoCmdOk := true, sudoStderr := "", upOk := true }

/-- C2, counterexample.  With administrator privilege absent,
`modify_mac_address` on Windows performs no native write but surfaces
`OperationError`, not the repository's `PermissionError` class, contradicting
the claim's required exception type (macOS behaves the same way). -/
theorem C2_counterexample :
    modify_mac_address_windows winEnvNoAdmin "0" "00:11:22:33:44:55"
      = ([], .error (.operationError ("修改MAC地址失败: " ++ "修改MAC地址需要管理员权限"))) ∧
    resultIsPermissionError
      (modify_mac_address_windows winEnvNoAdmin "0" "00:11:22:33:44:55").2 = false ∧
    modify_mac_address_macos macEnvNoSudo "en0" "00:11:22:33:44:55"
      = ([], .error (.operationError ("修改MAC地址失败: " ++ "修改MAC地址需要sudo权限"))) ∧
    resultIsPermissionError
      (modify_mac_address_macos macEnvNoSudo "en0" "00:11:22:33:44:55").2 = false :=
  ⟨rfl, rfl, rfl, rfl⟩

/-- C2, corrected theorem.  When the required privilege is absent, every
mutating engine call returns before any native write event: on Windows all
four operations check the admin privilege first; on macOS
`modify_mac_address` and `restore_original_mac` check the sudo permission
first, while `modify_machine_guid` and `modify_volume_serial` unconditionally
fail fast (unsupported capability) with no permission check and no native
access.  In every case the surfaced exception is `OperationError`, not
`PermissionError`. -/
theorem C2_permission_gate (env : WinEnv) (menv : MacEnv)
    (adapter_id new_mac new_guid drive new_serial : String)
    (hw : env.admin = false) (hm : menv.sudoOk = false) :
    ((modify_mac_address_windows env adapter_id new_mac).1 = [] ∧
      resultIsOperationError (modify_mac_address_windows env adapter_id new_mac).2 = true) ∧
    ((restore_original_mac_windows env adapter_id).1 = [] ∧
      resultIsOperationError (restore_original_mac_windows env adapter_id).2 = true) ∧
    ((modify_machine_guid_windows env new_guid).1 = [] ∧
      resultIsOperationError (modify_machine_guid_windows env new_guid).2 = true) ∧
    ((modify_volume_serial_windows env drive new_serial).1 = [] ∧
      resultIsOperationError (modify_volume_serial_windows env drive new_serial).2 = true) ∧
    ((modify_mac_address_macos menv adapter_id new_mac).1 = [] ∧
      resultIsOperationError (modify_mac_address_macos menv adapter_id new_mac).2 = true) ∧
    ((restore_original_mac_macos menv adapter_id).1 = [] ∧
      resultIsOperationError (restore_original_mac_macos menv adapter_id).2 = true) ∧
    ((modify_machine_guid_macos new_guid).1 = [] ∧
      resultIsOperationError (modify_machine_guid_macos new_guid).2 = true) ∧
    ((modify_volume_serial_macos drive new_serial).1 = [] ∧
      resultIsOperationError (modify_volume_serial_macos drive new_serial).2 = true) := by
  refine ⟨?_, ?_, ?_, ?_, ?_, ?_, ⟨rfl, rfl⟩, ⟨rfl, rfl⟩⟩ <;>
    simp [modify_mac_address_windows, restore_original_mac_windows,
      modify_machine_guid_windows, modify_volume_serial_windows,
      modify_mac_address_macos, restore_original_mac_macos,
      hw, hm, resultIsOperationError]

/-- Witness for C2 at the concrete unprivileged environments. -/
theorem C2_witness :
    (modify_mac_address_windows winEnvNoAdmin "0" "AA:BB:CC:DD:EE:FF").1 = [] ∧
    resultIsOperationError
      (modify_mac_address_windows winEnvNoAdmin "0" "AA:BB:CC:DD:EE:FF").2 = true ∧
    (modify_machine_guid_windows winEnvNoAdmin "g").1 = [] ∧
    resultIsOperationError (modify_machine_guid_windows winEnvNoAdmin "g").2 = true ∧
    (restore_original_mac_macos macEnvNoSudo "en0").1 = [] ∧
    resultIsOperationError (restore_original_mac_macos macEnvNoSudo "en0").2 = true := by
  have h := C2_permission_gate winEnvNoAdmin macEnvNoSudo "0" "AA:BB:CC:DD:EE:FF" "g" "C:" "1234"
    rfl rfl
  exact ⟨h.1.1, h.1.2, h.2.2.1.1, h.2.2.1.2, h.2.2.2.2.2.1.1, h.2.2.2.2.2.1.2⟩

/-! ### C5: apply validates first, backs up before mutating -/

/-- C5, theorem.  On both platforms `apply_fingerprint_changes` runs
validation first: an invalid verdict raises `OperationError` with an empty
native-event trace (no backup, no mutation); a valid verdict produces a
trace whose first event is the fingerprint backup, so every mutation event
comes after the backup. -/
theorem C5_apply_validate_backup_order (env : WinEnv) (menv : MacEnv) (ch : Changes) :
    ((validate_fingerprint_changes_windows env.adapters ch).valid = false →
      (apply_fingerprint_changes_windows env ch).1 = [] ∧
      resultIsOperationError (apply_fingerprint_changes_windows env ch).2 = true) ∧
    ((validate_fingerprint_changes_windows env.adapters ch).valid = true →
      ∃ rest, (apply_fingerprint_changes_windows env ch).1 = .fingerprintBackup :: rest) ∧
    ((validate_fingerprint_changes_macos menv.adapters menv.sudoOk ch).valid = false →
      (apply_fingerprint_changes_macos menv ch).1 = [] ∧
      resultIsOperationError (apply_fingerprint_changes_macos menv ch).2 = true) ∧
    ((validate_fingerprint_changes_macos menv.adapters menv.sudoOk ch).valid = true →
      ∃ rest, (apply_fingerprint_changes_macos menv ch).1 = .fingerprintBackup :: rest) := by
  refine ⟨?_, ?_, ?_, ?_⟩
  · intro hv
    simp [apply_fingerprint_changes_windows, hv, resultIsOperationError]
  · intro hv
    cases hb : env.backupOk <;>
      simp [apply_fingerprint_changes_windows, hv, backup_current_fingerprint_windows, hb]
  · intro hv
    simp [apply_fingerprint_changes_macos, hv, resultIsOperationError]
  · intro hv
    cases hb : menv.backupOk <;>
      simp [apply_fingerprint_changes_macos, hv, backup_current_fingerprint_macos, hb]

/-- Witness for C5: a volume-serial change-set is rejected before backup
(trace empty, `OperationError`), and an empty change-set validates and
produces a backup-first trace. -/
theorem C5_witness :
    (apply_fingerprint_changes_windows winEnvNoAdmin { volume_serial_changes := some () }).1
        = [] ∧
    resultIsOperationError
      (apply_fingerprint_changes_windows winEnvNoAdmin
        { volume_serial_changes := some () }).2 = true ∧
    (∃ rest, (apply_fingerprint_changes_windows winEnvNoAdmin {}).1
        = .fingerprintBackup :: rest) ∧
    (apply_fingerprint_changes_macos macEnvNoSudo { volume_serial_changes := some () }).1
        = [] ∧
    (∃ rest, (apply_fingerprint_changes_macos macEnvNoSudo {}).1
        = .fingerprintBackup :: rest) := by
  have h1 := C5_apply_validate_backup_order winEnvNoAdmin macEnvNoSudo
    { volume_serial_changes := some () }
  have h2 := C5_apply_validate_backup_order winEnvNoAdmin macEnvNoSudo {}
  exact ⟨(h1.1 (by decide)).1, (h1.1 (by decide)).2, h2.2.1 (by decide),
    (h1.2.2.1 (by decide)).1, h2.2.2.2 (by decide)⟩

/-! ## macOS adapter discovery (`MacOSNetworkManager.get_network_adapters`)

`_get_ifconfig_adapters` parses the `ifconfig` output line by line,
`_get_networksetup_adapters` supplies hardware-port records, and the two are
merged.  The parse is embedded over the raw output lines; the regular
expressions `ether ([a-fA-F0-9:]{17})`, `status: (\w+)` and
`inet (\d+\.\d+\.\d+\.\d+)` are translated as leftmost-match scanners (the
sub-patterns are maximal-munch-safe, so no backtracking is needed). -/

/-- The character class `[a-fA-F0-9:]` of the `ether` regex. -/
def isEtherChar (c : Char) : Bool := isHexChar c || c = ':'

/-- Python `needle in hay` (substring containment). -/
def containsChars (needle : List Char) : List Char → Bool
  | [] => startsWithChars needle []
  | hay@(_ :: rest) => startsWithChars needle hay || containsChars needle rest

/-- Take exactly `n` characters of class `p`, or fail. -/
def grabClassN (p : Char → Bool) : Nat → List Char → Option (List Char)
  | 0, _ => some []
  | _ + 1, [] => none
  | n + 1, c :: rest =>
    if p c then (grabClassN p n rest).map (fun l => c :: l) else none

/-- Leftmost match of `ether ([a-fA-F0-9:]{17})`. -/
def findEtherMac : List Char → Option String
  | [] => none
  | cs@(_ :: rest) =>
    if startsWithChars "ether ".data cs then
      match grabClassN isEtherChar 17 (cs.drop 6) with
      | some m => some (String.mk m)
      | none => findEtherMac rest
    else findEtherMac rest

/-- `\w` (ASCII model of the word-character class). -/
def isWordChar (c : Char) : Bool := c.isAlphanum || c = '_'

/-- Leftmost match of `status: (\w+)`. -/
def findStatusWord : List Char → Option String
  | [] => none
  | cs@(_ :: rest) =>
    if startsWithChars "status: ".data cs then
      let run := (cs.drop 8).takeWhile isWordChar
      if run.length = 0 then findStatusWord rest else some (String.mk run)
    else findStatusWord rest

/-- `\d+\.\d+\.\d+\.\d+` at the start of the input. -/
def grabIpAt (cs : List Char) : Option String :=
  let d1 := cs.takeWhile Char.isDigit
  if d1 = [] then none else
  match cs.drop d1.length with
  | '.' :: r1 =>
    let d2 := r1.takeWhile Char.isDigit
    if d2 = [] then none else
    match r1.drop d2.length with
    | '.' :: r2 =>
      let d3 := r2.takeWhile Char.isDigit
      if d3 = [] then none else
      match r2.drop d3.length with
      | '.' :: r3 =>
        let d4 := r3.takeWhile Char.isDigit
        if d4 = [] then none
        else some (String.mk (d1 ++ '.' :: d2 ++ '.' :: d3 ++ '.' :: d4))
      | _ => none
    | _ => none
  | _ => none

/-- Leftmost match of `inet (\d+\.\d+\.\d+\.\d+)`. -/
def findInet : List Char → Option String
  | [] => none
  | cs@(_ :: rest) =>
    if startsWithChars "inet ".data cs then
      match grabIpAt (cs.drop 5) with
      | some ip => some ip
      | none => findInet rest
    else findInet rest

/-- Per-interface dict built by `_get_ifconfig_adapters`. -/
structure IfconfigRec where
  iface : String
  mac_address : Option String
  status : String
  description : String
  ip_address : Option String
deriving DecidableEq

/-- One line of the `_get_ifconfig_adapters` loop: a non-empty line that does
not start with a tab or space opens a new interface record (pushing the
current one); otherwise the `ether` / `status:` / `inet ` branches update the
current record when one exists. -/
def ifconfigStep (acc : List IfconfigRec × Option IfconfigRec) (line : String) :
    List IfconfigRec × Option IfconfigRec :=
  let cs := line.data
  if line ≠ "" ∧ startsWithChars ['\t'] cs = false ∧ startsWithChars [' '] cs = false then
    let pushed := match acc.2 with
      | none => acc.1
      | some cur => acc.1 ++ [cur]
    let name := String.mk (cs.takeWhile (fun c => c ≠ ':'))
    (pushed, some { iface := name, mac_address := none, status := "unknown",
                    description := "Network Interface " ++ name, ip_address := none })
  else
    match acc.2 with
    | none => acc
    | some cur =>
      if containsChars "ether".data cs then
        match findEtherMac cs with
        | some m => (acc.1, some { cur with mac_address := some m })
        | none => (acc.1, some cur)
      else if containsChars "status:".data cs then
        match findStatusWord cs with
        | some w => (acc.1, some { cur with status := w })
        | none => (acc.1, some cur)
      else if containsChars "inet ".data cs then
        match findInet cs with
        | some ip => (acc.1, some { cur with ip_address := some ip })
        | none => (acc.1, some cur)
      else acc

/-- `_get_ifconfig_adapters` before the final filter: fold the loop and
append the trailing interface. -/
def parseIfconfig (lines : List String) : List IfconfigRec :=
  let r := lines.foldl ifconfigStep ([], none)
  match r.2 with
  | none => r.1
  | some cur => r.1 ++ [cur]

/-- `_get_ifconfig_adapters`: interfaces without a (truthy) MAC address —
loopbacks and the like — are filtered out. -/
def ifconfigAdapters (lines : List String) : List IfconfigRec :=
  (parseIfconfig lines).filter (fun r => pyTruthyOptStr r.mac_address)

/-- Per-port dict built by `_get_networksetup_adapters`. -/
structure NetworksetupRec where
  name : Option String := none
  device : Option String := none
  mac_address : Option String := none
deriving DecidableEq

/-- The merge lookup: first networksetup record whose `device` equals the
interface name or whose `mac_address` equals the interface's MAC. -/
def findNetworksetupInfo (ns : List NetworksetupRec) (r : IfconfigRec) :
    Option NetworksetupRec :=
  ns.find? (fun n => n.device = some r.iface || n.mac_address = r.mac_address)

/-- `_determine_adapter_type` (macOS): by interface-name prefixes and
substrings. -/
def determine_adapter_type_macos (iface : String) : AdapterType :=
  let l := (String.mk (iface.data.map Char.toLower)).data
  if startsWithChars "en".data l then .ethernet
  else if startsWithChars "wi".data l || startsWithChars "wl".data l then .wireless
  else if startsWithChars "bt".data l || containsChars "bluetooth".data l then .bluetooth
  else if containsChars "vmnet".data l || containsChars "vnic".data l ||
      containsChars "utun".data l then .virtual
  else .other

/-- The merge loop of `get_network_adapters`: each filtered ifconfig record
is paired with its networksetup record; a missing pairing raises (the code
dereferences `None.get`, an `AttributeError` re-raised as
`NetworkAdapterError`). -/
def mergeMacosAdapters (ns : List NetworksetupRec) :
    List IfconfigRec → Except JanusErr (List NetworkAdapterRec)
  | [] => .ok []
  | r :: rest =>
    match findNetworksetupInfo ns r with
    | none => .error (.networkAdapterError
        ("获取网络适配器失败: " ++ "'NoneType' object has no attribute 'get'"))
    | some info =>
      match mergeMacosAdapters ns rest with
      | .error e => .error e
      | .ok l =>
        .ok ({ id := r.iface,
               name := (info.name).getD r.iface,
               description := r.description,
               mac_address := (r.mac_address).getD "",
               status := r.status,
               adapter_type := determine_adapter_type_macos r.iface,
               can_modify := r.mac_address.isSome,
               interface_name := some r.iface } :: l)

/-- `MacOSNetworkManager.get_network_adapters` over the raw `ifconfig`
output lines and the parsed networksetup records. -/
def get_network_adapters_macos (ifconfigLines : List String)
    (ns : List NetworksetupRec) : Except JanusErr (List NetworkAdapterRec) :=
  mergeMacosAdapters ns (ifconfigAdapters ifconfigLines)

lemma mergeMacosAdapters_mac_truthy (ns : List NetworksetupRec) :
    ∀ (rs : List IfconfigRec) (l : List NetworkAdapterRec),
      (∀ r ∈ rs, pyTruthyOptStr r.mac_address = true) →
      mergeMacosAdapters ns rs = .ok l →
      ∀ a ∈ l, a.mac_address ≠ "" ∧ a.can_modify = true := by
  intro rs
  induction rs with
  | nil =>
    intro l _ hmer a ha
    simp only [mergeMacosAdapters] at hmer
    cases hmer
    simp at ha
  | cons r rest ih =>
    intro l hall hmer a ha
    cases hI : findNetworksetupInfo ns r with
    | none => simp [mergeMacosAdapters, hI] at hmer
    | some info =>
      cases hR : mergeMacosAdapters ns rest with
      | error e => simp [mergeMacosAdapters, hI, hR] at hmer
      | ok tail =>
        simp only [mergeMacosAdapters, hI, hR, Except.ok.injEq] at hmer
        subst hmer
        have htr := hall r (by simp)
        rcases List.mem_cons.mp ha with ha | ha
        · subst ha
          cases hM : r.mac_address with
          | none => rw [hM] at htr; simp [pyTruthyOptStr] at htr
          | some s =>
            rw [hM] at htr
            simp only [pyTruthyOptStr, ne_eq, decide_eq_true_eq] at htr
            simp [hM, htr]
        · exact ih tail (fun x hx => hall x (by simp [hx])) hR a ha

/-- C10, theorem.  Every adapter returned by the macOS
`get_network_adapters` has a non-empty MAC address and `can_modify = True`:
interfaces without a MAC are filtered out before merging and `can_modify` is
derived solely from MAC presence. -/
theorem C10_macos_adapters_modifiable (ifconfigLines : List String)
    (ns : List NetworksetupRec) (adapters : List NetworkAdapterRec)
    (h : get_network_adapters_macos ifconfigLines ns = .ok adapters) :
    ∀ a ∈ adapters, a.mac_address ≠ "" ∧ a.can_modify = true := by
  refine mergeMacosAdapters_mac_truthy ns (ifconfigAdapters ifconfigLines) adapters ?_ h
  intro r hr
  exact (List.mem_filter.mp hr).2

/-- Demo `ifconfig` output: an `en0` with a MAC and a loopback without one. -/
def demoIfconfigLines : List String :=
  ["en0: flags=8863<UP,BROADCAST,SMART,RUNNING> mtu 1500",
   "\tether aa:bb:cc:dd:ee:ff ",
   "\tstatus: active",
   "lo0: flags=8049<UP,LOOPBACK,RUNNING> mtu 16384",
   "\tinet 127.0.0.1 netmask 0xff000000"]

/-- Demo networksetup listing for the demo interface. -/
def demoNetworksetup : List NetworksetupRec :=
  [{ name := some "Wi-Fi", device := some "en0", mac_address := some "aa:bb:cc:dd:ee:ff" }]

/-- The adapter that discovery produces on the demo data. -/
def demoAdapter : NetworkAdapterRec :=
  { id := "en0", name := "Wi-Fi", description := "Network Interface en0",
    mac_address := "aa:bb:cc:dd:ee:ff", status := "active",
    adapter_type := .ethernet, can_modify := true,
    registry_path := none, interface_name := some "en0" }

/-! ## Audit-log read paths (`AuditLogger.get_operation_history` / `search_logs`)

The audit file is a sequence of lines; each line's `json.loads` outcome is
modelled as `Except Unit PyJson` (quantifying over outcomes covers every
file content, since every outcome is realised by some line).  Per line, the
code catches only `(json.JSONDecodeError, KeyError)` — those lines are
skipped — while other exceptions (`AttributeError` from a non-object JSON
value, `TypeError`/`ValueError` from `datetime.fromisoformat`) escape to the
function-level handler, which drops everything read so far and returns `[]`.
`datetime` values are modelled by their ISO string (same-format ISO strings
compare chronologically as strings); `fromisoformat` acceptance is modelled
by `isoOk`, restricted to the shape `datetime.isoformat()` emits. -/

/-- A Python JSON value (`json.loads` result). -/
inductive PyJson
  | null
  | bool (b : Bool)
  | num (n : Int)
  | str (s : String)
  | arr (elems : List PyJson)
  | obj (fields : List (String × PyJson))

/-- Dict lookup `d[k]` / `d.get(k)` (keys are unique in parsed JSON; the
first match is taken). -/
def objGet (fields : List (String × PyJson)) (k : String) : Option PyJson :=
  match fields.find? (fun p => p.1 = k) with
  | some p => some p.2
  | none => none

/-- Python `j == s` for a string literal `s` (cross-type equality is `False`). -/
def pyEqStr (j : PyJson) (s : String) : Bool :=
  match j with
  | .str t => t = s
  | _ => false

/-- Model of `datetime.fromisoformat` acceptance, restricted to the format
`datetime.isoformat()` emits: `YYYY-MM-DDTHH:MM:SS` with an optional
`.fff`/`.ffffff` fraction, with basic range checks. -/
def isoOk (s : String) : Bool :=
  match s.data with
  | y1 :: y2 :: y3 :: y4 :: '-' :: m1 :: m2 :: '-' :: d1 :: d2 :: 'T' ::
      h1 :: h2 :: ':' :: mi1 :: mi2 :: ':' :: s1 :: s2 :: rest =>
    ([y1, y2, y3, y4, m1, m2, d1, d2, h1, h2, mi1, mi2, s1, s2].all Char.isDigit) &&
    (let mo := 10 * (m1.toNat - 48) + (m2.toNat - 48)
     let da := 10 * (d1.toNat - 48) + (d2.toNat - 48)
     let ho := 10 * (h1.toNat - 48) + (h2.toNat - 48)
     let mi := 10 * (mi1.toNat - 48) + (mi2.toNat - 48)
     let se := 10 * (s1.toNat - 48) + (s2.toNat - 48)
     decide (1 ≤ mo) && decide (mo ≤ 12) && decide (1 ≤ da) && decide (da ≤ 31) &&
     decide (ho ≤ 23) && decide (mi ≤ 59) && decide (se ≤ 59)) &&
    (match rest with
     | [] => true
     | '.' :: frac => (frac.length = 3 || frac.length = 6) && frac.all Char.isDigit
     | _ => false)
  | _ => false

/-- The `OperationRecord` reconstructed by the readers; field values are the
raw JSON values (the dataclass performs no conversion), the timestamp is the
parsed ISO string. -/
structure OpRecord where
  operation_id : PyJson
  timestamp : String
  operation_type : PyJson
  target : PyJson
  parameters : PyJson
  result : PyJson
  backup_id : Option PyJson
  risk_level : PyJson
  user : PyJson
  duration : PyJson

/-- Outcome of processing one line inside the per-line `try`. -/
inductive LineStep
  | skip
  | record (r : OpRecord)
  | abort

/-- The remaining required-field accesses of the `OperationRecord(...)`
constructor call; any missing key raises `KeyError`, which the per-line
handler turns into a skip. -/
def requiredFields (kvs : List (String × PyJson)) (oid : PyJson) (ts : String) : LineStep :=
  match objGet kvs "operation_type", objGet kvs "target", objGet kvs "parameters",
      objGet kvs "result", objGet kvs "risk_level", objGet kvs "user",
      objGet kvs "duration" with
  | some ot, some tg, some pm, some rs, some rl, some us, some du =>
    .record ⟨oid, ts, ot, tg, pm, rs, objGet kvs "backup_id", rl, us, du⟩
  | _, _, _, _, _, _, _ => .skip

/-- One line of `get_operation_history`: decode failures and security events
are skipped; a non-object value aborts (`AttributeError` on `.get`);
`operation_id` is accessed first, then the timestamp is parsed
(`ValueError`/`TypeError` abort), then the remaining fields. -/
def histLineStep (line : Except Unit PyJson) : LineStep :=
  match line with
  | .error _ => .skip
  | .ok j =>
    match j with
    | .obj kvs =>
      if (match objGet kvs "event_type" with
          | some v => pyEqStr v "security_event"
          | none => false) then .skip
      else
        match objGet kvs "operation_id" with
        | none => .skip
        | some oid =>
          match objGet kvs "timestamp" with
          | none => .skip
          | some tj =>
            match tj with
            | .str ts => if isoOk ts then requiredFields kvs oid ts else .abort
            | _ => .abort
    | _ => .abort

/-- Python `needle in hay` on strings, with the empty needle matching
everything (as in Python). -/
def pyContainsSub (needle hay : List Char) : Bool :=
  match needle with
  | [] => true
  | _ :: _ => containsChars needle hay

/-- `str.lower()` (ASCII model). -/
def strLower (s : String) : String := String.mk (s.data.map Char.toLower)

/-- JSON string escaping used by `json.dumps` (ensure_ascii=False). -/
def escapeJsonChar (c : Char) : String :=
  if c = '"' then "\\\""
  else if c = '\\' then "\\\\"
  else if c = '\n' then "\\n"
  else if c = '\t' then "\\t"
  else if c = '\r' then "\\r"
  else if c = '\x08' then "\\b"
  else if c = '\x0c' then "\\f"
  else if c.toNat < 32 then "\\u00" ++ String.mk (toHex2Lower c.toNat)
  else String.mk [c]

/-- Escape a whole string. -/
def escapeJson (s : String) : String := String.join (s.data.map escapeJsonChar)

/-- `', '.join` of rendered items. -/
def joinComma : List String → String
  | [] => ""
  | [x] => x
  | x :: rest => x ++ ", " ++ joinComma rest

/-- `json.dumps(v, ensure_ascii=False)` with default separators; `fuel`
bounds the nesting depth (callers pass enough). -/
def pyDumpsFuel : Nat → PyJson → String
  | _, .null => "null"
  | _, .bool true => "true"
  | _, .bool false => "false"
  | _, .num n => toString n
  | _, .str s => "\"" ++ escapeJson s ++ "\""
  | 0, .arr _ => ""
  | 0, .obj _ => ""
  | fuel + 1, .arr xs => "[" ++ joinComma (xs.map (pyDumpsFuel fuel)) ++ "]"
  | fuel + 1, .obj kvs =>
    "\x7b" ++
      joinComma (kvs.map (fun p => "\"" ++ escapeJson p.1 ++ "\": " ++ pyDumpsFuel fuel p.2)) ++
      "\x7d"

/-- The content search `query.lower() in json.dumps(data).lower()`. -/
def queryMatches (query : String) (kvs : List (String × PyJson)) : Bool :=
  pyContainsSub (strLower query).data (strLower (pyDumpsFuel 100 (.obj kvs))).data

/-- Python string `<` (lexicographic by code point). -/
def lexLtChars : List Char → List Char → Bool
  | [], [] => false
  | [], _ :: _ => true
  | _ :: _, [] => false
  | a :: as, b :: bs => if a < b then true else if b < a then false else lexLtChars as bs

/-- One line of `search_logs`: decode failures and security events are
skipped; a non-object value aborts; the timestamp is accessed and parsed
first (`KeyError` skips, `ValueError`/`TypeError` abort), then the time
filters and the content search decide between skip and constructing the
record (whose missing fields skip). -/
def searchLineStep (query : String) (startT endT : Option String)
    (line : Except Unit PyJson) : LineStep :=
  match line with
  | .error _ => .skip
  | .ok j =>
    match j with
    | .obj kvs =>
      if (match objGet kvs "event_type" with
          | some v => pyEqStr v "security_event"
          | none => false) then .skip
      else
        match objGet kvs "timestamp" with
        | none => .skip
        | some tj =>
          match tj with
          | .str ts =>
            if isoOk ts then
              if (match startT with
                  | some st => lexLtChars ts.data st.data
                  | none => false) then .skip
              else if (match endT with
                  | some et => lexLtChars et.data ts.data
                  | none => false) then .skip
              else if queryMatches query kvs then
                match objGet kvs "operation_id" with
                | none => .skip
                | some oid => requiredFields kvs oid ts
              else .skip
            else .abort
          | _ => .abort
    | _ => .abort

/-- The shared scan loop of both readers: process lines in order,
accumulating records; an abort escapes to the function-level handler. -/
def scanLines (step : Except Unit PyJson → LineStep) :
    List (Except Unit PyJson) → List OpRecord → Option (List OpRecord)
  | [], acc => some acc
  | line :: rest, acc =>
    match step line with
    | .skip => scanLines step rest acc
    | .record r => scanLines step rest (acc ++ [r])
    | .abort => none

/-- Python `lines[-limit:]` (with the `-0` quirk: `limit = 0` slices the
whole list). -/
def pyTailSlice {α : Type} (limit : Nat) (l : List α) : List α :=
  if limit = 0 then l else l.drop (l.length - limit)

/-- `AuditLogger.get_operation_history`: scan the last `limit` lines, newest
first; the function-level handler turns an escaped exception into `[]`. -/
def get_operation_history (limit : Nat) (lines : List (Except Unit PyJson)) :
    List OpRecord :=
  match scanLines histLineStep ((pyTailSlice limit lines).reverse) [] with
  | some recs => recs
  | none => []

/-- `AuditLogger.search_logs`: scan all lines in file order; the
function-level handler turns an escaped exception into `[]`. -/
def search_logs (query : String) (startT endT : Option String)
    (lines : List (Except Unit PyJson)) : List OpRecord :=
  match scanLines (searchLineStep query startT endT) lines [] with
  | some recs => recs
  | none => []

/-- The record a single line contributes under the claim's reading: skipped
lines contribute nothing, well-formed lines their record. -/
def recoverOf (step : Except Unit PyJson → LineStep) (line : Except Unit PyJson) :
    Option OpRecord :=
  match step line with
  | .record r => some r
  | _ => none

/-- The records the claim says `get_operation_history` returns: those
recovered from the well-formed lines of the scanned window, bad lines
skipped. -/
def recoveredHistory (limit : Nat) (lines : List (Except Unit PyJson)) : List OpRecord :=
  ((pyTailSlice limit lines).reverse).filterMap (recoverOf histLineStep)

/-- The records the claim says `search_logs` returns. -/
def recoveredSearch (query : String) (startT endT : Option String)
    (lines : List (Except Unit PyJson)) : List OpRecord :=
  lines.filterMap (recoverOf (searchLineStep query startT endT))

/-- Does a line escape the per-line handler (aborting the scan)? -/
def stepAborts (step : Except Unit PyJson → LineStep) (line : Except Unit PyJson) : Bool :=
  match step line with
  | .abort => true
  | _ => false

lemma scanLines_no_abort (step : Except Unit PyJson → LineStep) :
    ∀ (ls : List (Except Unit PyJson)) (acc : List OpRecord),
      (∀ l ∈ ls, stepAborts step l = false) →
      scanLines step ls acc = some (acc ++ ls.filterMap (recoverOf step)) := by
  intro ls
  induction ls with
  | nil => intro acc _; simp [scanLines]
  | cons l rest ih =>
    intro acc hall
    have hl := hall l (by simp)
    cases hs : step l with
    | skip =>
      simp only [scanLines, hs, List.filterMap_cons, recoverOf]
      exact ih acc (fun x hx => hall x (by simp [hx]))
    | record r =>
      simp only [scanLines, hs, List.filterMap_cons, recoverOf]
      rw [ih (acc ++ [r]) (fun x hx => hall x (by simp [hx]))]
      simp
    | abort => rw [stepAborts, hs] at hl; cases hl

lemma scanLines_abort (step : Except Unit PyJson → LineStep) :
    ∀ (ls : List (Except Unit PyJson)) (acc : List OpRecord),
      (∃ l ∈ ls, stepAborts step l = true) →
      scanLines step ls acc = none := by
  intro ls
  induction ls with
  | nil => intro acc h; simp at h
  | cons l rest ih =>
    intro acc h
    cases hs : step l with
    | skip =>
      simp only [scanLines, hs]
      refine ih acc ?_
      rcases h with ⟨x, hx, hab⟩
      rcases List.mem_cons.mp hx with rfl | hx
      · rw [stepAborts, hs] at hab; cases hab
      · exact ⟨x, hx, hab⟩
    | record r =>
      simp only [scanLines, hs]
      refine ih (acc ++ [r]) ?_
      rcases h with ⟨x, hx, hab⟩
      rcases List.mem_cons.mp hx with rfl | hx
      · rw [stepAborts, hs] at hab; cases hab
      · exact ⟨x, hx, hab⟩
    | abort => simp only [scanLines, hs]

/-- C8, corrected theorem.  Both read paths are total (the function-level
handler catches every escaped exception): when no scanned line parses to a
non-object JSON value or carries an invalid timestamp field, each function
returns exactly the records recovered from the well-formed lines — lines
failing JSON decoding, security events, and lines lacking required fields
are skipped; but when such an aborting line is scanned, the function returns
the empty list, discarding the records recovered from the other lines. -/
theorem C8_readers_skip_or_abort (limit : Nat) (lines : List (Except Unit PyJson))
    (query : String) (startT endT : Option String) :
    ((∀ l ∈ pyTailSlice limit lines, stepAborts histLineStep l = false) →
      get_operation_history limit lines = recoveredHistory limit lines) ∧
    ((∃ l ∈ pyTailSlice limit lines, stepAborts histLineStep l = true) →
      get_operation_history limit lines = []) ∧
    ((∀ l ∈ lines, stepAborts (searchLineStep query startT endT) l = false) →
      search_logs query startT endT lines = recoveredSearch query startT endT lines) ∧
    ((∃ l ∈ lines, stepAborts (searchLineStep query startT endT) l = true) →
      search_logs query startT endT lines = []) := by
  refine ⟨?_, ?_, ?_, ?_⟩
  · intro hall
    unfold get_operation_history recoveredHistory
    rw [scanLines_no_abort histLineStep _ []
      (fun x hx => hall x (List.mem_reverse.mp hx))]
    simp
  · intro hex
    unfold get_operation_history
    rcases hex with ⟨x, hx, hab⟩
    rw [scanLines_abort histLineStep _ [] ⟨x, List.mem_reverse.mpr hx, hab⟩]
  · intro hall
    unfold search_logs recoveredSearch
    rw [scanLines_no_abort _ _ [] hall]
    simp
  · intro hex
    unfold search_logs
    rw [scanLines_abort _ _ [] hex]

/-- A well-formed audit record line. -/
def goodAuditObj : PyJson :=
  .obj [("operation_id", .str "op-1"), ("timestamp", .str "2025-01-01T00:00:00"),
        ("operation_type", .str "modify"), ("target", .str "adapter0"),
        ("parameters", .obj []), ("result", .str "success"), ("backup_id", .null),
        ("risk_level", .str "low"), ("user", .str "root"), ("duration", .num 1)]

/-- The record recovered from `goodAuditObj`. -/
def goodAuditRecord : OpRecord :=
  ⟨.str "op-1", "2025-01-01T00:00:00", .str "modify", .str "adapter0", .obj [],
   .str "success", some .null, .str "low", .str "root", .num 1⟩

/-- A file with one good record line followed by the well-formed JSON line
`42`, which is not an object. -/
def badAuditLines : List (Except Unit PyJson) := [.ok goodAuditObj, .ok (.num 42)]

/-- C8, counterexample.  On a file holding one well-formed record line and
one malformed line (the JSON value `42`), the claim predicts that both
readers skip the bad line and return the one recovered record; the code
instead aborts through its function-level handler and returns `[]`,
discarding the good record (no exception is raised either way). -/
theorem C8_counterexample :
    get_operation_history 100 badAuditLines = [] ∧
    recoveredHistory 100 badAuditLines = [goodAuditRecord] ∧
    search_logs "" none none badAuditLines = [] ∧
    recoveredSearch "" none none badAuditLines = [goodAuditRecord] :=
  ⟨rfl, rfl, rfl, rfl⟩

/-- Witness for C8: an all-benign file is read in full, and the aborting
file from the counterexample yields `[]`. -/
theorem C8_witness :
    get_operation_history 100 [.ok goodAuditObj] = recoveredHistory 100 [.ok goodAuditObj] ∧
    search_logs "" none none [.ok goodAuditObj]
      = recoveredSearch "" none none [.ok goodAuditObj] ∧
    get_operation_history 100 badAuditLines = [] := by
  have h1 := C8_readers_skip_or_abort 100 [.ok goodAuditObj] "" none none
  have h2 := C8_readers_skip_or_abort 100 badAuditLines "" none none
  refine ⟨h1.1 ?_, h1.2.2.1 ?_, h2.2.1 ?_⟩
  · intro l hl
    rcases List.mem_singleton.mp (by simpa [pyTailSlice] using hl) with rfl
    rfl
  · intro l hl
    rcases List.mem_singleton.mp hl with rfl
    rfl
  · exact ⟨.ok (.num 42), by simp [pyTailSlice, badAuditLines], rfl⟩

/-! ## Registry-backup store (`RegistryManager.list_backups` / `delete_backup`)

The backup directory is modelled as a list of files (name, `json.load`
outcome, stat size).  `delete_backup` tests for `<backup_id>.json` and
unlinks it; `list_backups` reads every `*.json` file, skipping any file
whose read raises (`except Exception: continue`), and sorts by timestamp,
newest first. -/

/-- A file of the registry backup directory. -/
structure RegFile where
  name : String
  content : Except Unit PyJson
  size : Nat

/-- `RegistryManager.delete_backup`: if `<backup_id>.json` exists it is
unlinked and `True` returned; otherwise `False` is returned (no exception)
and nothing changes. -/
def reg_delete_backup (fs : List RegFile) (backup_id : String) : Bool × List RegFile :=
  let fname := backup_id ++ ".json"
  if fs.any (fun f => f.name = fname) then
    (true, fs.filter (fun f => f.name ≠ fname))
  else (false, fs)

/-- Python `len` on a JSON value (`TypeError` on the others). -/
def pyLen : PyJson → Option Nat
  | .str s => some s.length
  | .arr xs => some xs.length
  | .obj kvs => some kvs.length
  | _ => none

/-- The summary entry `list_backups` builds per backup file. -/
structure RegBackupEntry where
  backup_id : PyJson
  timestamp : PyJson
  registry_path : PyJson
  value_count : Nat
  file_size : Nat

/-- Reading one backup file: any failure (decode error, non-dict JSON,
missing key, `len` on an unsized value) is caught by the per-file
`except Exception` and the file is skipped. -/
def regListEntry (f : RegFile) : Option RegBackupEntry :=
  match f.content with
  | .error _ => none
  | .ok (.obj kvs) =>
    match objGet kvs "backup_id", objGet kvs "timestamp", objGet kvs "registry_path",
        objGet kvs "values" with
    | some bid, some ts, some rp, some vs =>
      match pyLen vs with
      | some n => some ⟨bid, ts, rp, n, f.size⟩
      | none => none
    | _, _, _, _ => none
  | .ok _ => none

/-- `s.endswith(suffix)` (the `glob("*.json")` filter). -/
def strEndsWith (s suffix : String) : Bool :=
  startsWithChars suffix.data.reverse s.data.reverse

/-- Sort key: the timestamp when it is a string (the writer always emits
strings; a non-string key makes Python's sort raise `TypeError`, which the
function-level handler converts to `[]` whenever a comparison happens). -/
def regTsKey (e : RegBackupEntry) : Option String :=
  match e.timestamp with
  | .str s => some s
  | _ => none

/-- Stable descending insertion by string key (matches Python's stable
`sort(key=..., reverse=True)`). -/
def insertTsDesc (e : RegBackupEntry) : List RegBackupEntry → List RegBackupEntry
  | [] => [e]
  | x :: rest =>
    if lexLtChars ((regTsKey x).getD "").data ((regTsKey e).getD "").data then
      e :: x :: rest
    else x :: insertTsDesc e rest

/-- `RegistryManager.list_backups`: parse every `*.json` file (skipping
unreadable ones) and sort by timestamp, newest first.  Lists of at most one
entry involve no comparison; otherwise a non-string timestamp key raises
`TypeError`, modelled by the `[]` fallback of the function-level handler. -/
def reg_list_backups (fs : List RegFile) : List RegBackupEntry :=
  let entries := (fs.filter (fun f => strEndsWith f.name ".json")).filterMap regListEntry
  if entries.length ≤ 1 then entries
  else if entries.all (fun e => (regTsKey e).isSome) then
    entries.foldl (fun acc e => insertTsDesc e acc) []
  else []

/-- C9, theorem.  Deleting a backup id with no stored backup file returns
`False` without an exception and leaves the store — hence the `list_backups`
report — unchanged. -/
theorem C9_delete_nonexistent_backup (fs : List RegFile) (backup_id : String)
    (h : fs.all (fun f => f.name ≠ backup_id ++ ".json") = true) :
    reg_delete_backup fs backup_id = (false, fs) ∧
    reg_list_backups (reg_delete_backup fs backup_id).2 = reg_list_backups fs := by
  have hany : fs.any (fun f => f.name = backup_id ++ ".json") = false := by
    rw [List.any_eq_false]
    intro f hf
    have := List.all_eq_true.mp h f hf
    simpa using this
  have heq : reg_delete_backup fs backup_id = (false, fs) := by
    simp [reg_delete_backup, hany]
  exact ⟨heq, by rw [heq]⟩

/-- Witness for C9 at a concrete one-file store and a missing id. -/
theorem C9_witness :
    reg_delete_backup [⟨"registry_x.json", .error (), 10⟩] "missing"
      = (false, [⟨"registry_x.json", .error (), 10⟩]) ∧
    reg_list_backups (reg_delete_backup [⟨"registry_x.json", .error (), 10⟩] "missing").2
      = reg_list_backups [⟨"registry_x.json", .error (), 10⟩] :=
  C9_delete_nonexistent_backup [⟨"registry_x.json", .error (), 10⟩] "missing" (by decide)

/-- Witness for C10 at concrete `ifconfig`/`networksetup` data. -/
theorem C10_witness :
    get_network_adapters_macos demoIfconfigLines demoNetworksetup = .ok [demoAdapter] ∧
    demoAdapter.mac_address ≠ "" ∧ demoAdapter.can_modify = true := by
  have heq : get_network_adapters_macos demoIfconfigLines demoNetworksetup
      = .ok [demoAdapter] := rfl
  refine ⟨heq, ?_, ?_⟩
  · exact (C10_macos_adapters_modifiable demoIfconfigLines demoNetworksetup [demoAdapter]
      heq demoAdapter (by simp)).1
  · exact (C10_macos_adapters_modifiable demoIfconfigLines demoNetworksetup [demoAdapter]
      heq demoAdapter (by simp)).2

end CAJanus
